import Mathlib

/-!
Shallow embedding of the chaser-v2 lighting sequencer core
(src/core/sequencer.ts, src/core/render-packet.ts,
src/outputs/artnet-output.ts, src/outputs/mqtt-output.ts).

Numbers are modelled by `ℚ` (exact arithmetic for the JS `number`
computations that matter here), byte-valued results by `ℤ`.
JS objects / `Map`s holding per-key vectors are modelled as
insertion-ordered association lists with JS `Map.set` / `delete`
semantics.  Wall-clock reads (`performance.now()` / `Date.now()`)
are threaded explicitly as a `nowMs : ℚ` parameter; `setInterval`
timers are modelled as booleans recording whether the timer runs.
-/

namespace Chaser

/-- JS `Math.round`: round half toward positive infinity. -/
def jsRound (q : ℚ) : ℤ := ⌊q + 1 / 2⌋

/-- sequencer.ts `clamp01`. -/
def clamp01 (value : ℚ) : ℚ :=
  if value < 0 then 0 else if value > 1 then 1 else value

/-- sequencer.ts `clampChannel` (the `Number.isFinite` guard is vacuous over `ℚ`). -/
def clampChannel (value : ℚ) : ℤ :=
  if value < 0 then 0 else if value > 255 then 255 else jsRound value

/-- sequencer.ts `isZeroValue`: JS `values.every((v) => v <= 0)`. -/
def isZeroValue (values : List ℤ) : Bool :=
  values.all (fun value => value ≤ 0)

/-- A feature value from a program frame: either a scalar or an array. -/
inductive FeatureValue where
  | scalar (value : ℚ)
  | arr (values : List ℚ)
deriving DecidableEq

/-- sequencer.ts `asArray`. -/
def asArray : FeatureValue → List ℚ
  | .scalar v => [v]
  | .arr vs => vs

/-- sequencer.ts `frameKey`. -/
def frameKey (fixtureId featureId : String) : String :=
  fixtureId ++ ":" ++ featureId

/-! ### JS object / Map association lists -/

/-- Lookup in a JS object / Map modelled as an association list. -/
def jsGet {κ α : Type} [BEq κ] (m : List (κ × α)) (k : κ) : Option α :=
  (m.find? (fun p => p.1 == k)).map (fun p => p.2)

/-- JS `Map.set` / object property assignment: update in place, else append. -/
def jsSet {κ α : Type} [BEq κ] (m : List (κ × α)) (k : κ) (v : α) : List (κ × α) :=
  if m.any (fun p => p.1 == k) then
    m.map (fun p => if p.1 == k then (k, v) else p)
  else m ++ [(k, v)]

/-- JS `Map.delete` / object `delete`: drop the key, keep order. -/
def jsDelete {κ α : Type} [BEq κ] (m : List (κ × α)) (k : κ) : List (κ × α) :=
  m.filter (fun p => p.1 != k)

/-- JS `new Map(list)`: repeated `Map.set`, so later entries win. -/
def jsMapOfList {κ α : Type} [BEq κ] (l : List (κ × α)) : List (κ × α) :=
  l.foldl (fun m p => jsSet m p.1 p.2) []

/-- JS `new Set([...])` key collection: first-occurrence deduplication. -/
def dedupKeys : List String → List String
  | [] => []
  | k :: rest => k :: dedupKeys (rest.filter (fun x => x != k))
termination_by l => l.length
decreasing_by
  simp only [List.length_cons]
  exact Nat.lt_succ_of_le (List.length_filter_le _ _)

/-- Per-(fixture,feature) byte vectors, keyed by `frameKey`. -/
abbrev LayerValueMap := List (String × List ℤ)

/-- sequencer.ts `valuesEqual`. -/
def valuesEqual (left : Option (List ℤ)) (right : List ℤ) : Bool :=
  match left with
  | none => false
  | some l => l == right

/-- sequencer.ts `interpolateLayerValues`: used by the mode cross-fade.
JS fallback chain `a[i] ?? a[0] ?? 0`. -/
def fallbackAt (l : List ℤ) (i : ℕ) : ℤ :=
  match l.get? i with
  | some v => v
  | none => (l.get? 0).getD 0

/-- JS `if (!isZeroValue(out)) combined[key] = out`: all-zero vectors are elided. -/
def elideZero (out : List ℤ) : Option (List ℤ) :=
  if isZeroValue out then none else some out

def interpolateLayerValues (fromValues toValues : LayerValueMap) (ratio : ℚ) :
    LayerValueMap :=
  let keys := dedupKeys (fromValues.map (fun p => p.1) ++ toValues.map (fun p => p.1))
  keys.filterMap (fun key =>
    let fm := (jsGet fromValues key).getD [0]
    let tm := (jsGet toValues key).getD [0]
    let len := max fm.length tm.length
    let out := (List.range len).map (fun i =>
      let fromValue : ℚ := (fallbackAt fm i : ℤ)
      let toValue : ℚ := (fallbackAt tm i : ℤ)
      clampChannel (fromValue + (toValue - fromValue) * ratio))
    (elideZero out).map (fun v => (key, v)))

/-! ### Sequencer data model -/

structure FeatureFrame where
  fixtureId : String
  featureId : String
  value : FeatureValue
deriving DecidableEq

structure Step where
  id : String
  durationMs : ℚ
  fadeMs : ℚ
  frames : List FeatureFrame
deriving DecidableEq

instance : Inhabited Step := ⟨⟨"", 0, 0, []⟩⟩

structure Program where
  id : String
  spm : ℚ
  loop : Bool
  steps : List Step
deriving DecidableEq

structure PlayheadState where
  isPlaying : Bool
  isBlackout : Bool
  programId : Option String
  stepIndex : ℕ
  positionMs : ℚ
  spm : ℚ
  loop : Bool
deriving DecidableEq

inductive VisibleMixMode where
  | static
  | sequencer
deriving DecidableEq

structure MixTransition where
  startedAtMs : ℚ
  fromValues : LayerValueMap
  toMode : VisibleMixMode
deriving DecidableEq

/-- `MODE_SWITCH_FADE_MS`. -/
def MODE_SWITCH_FADE_MS : ℚ := 500

structure SequencerFrame where
  timestamp : ℚ
  values : LayerValueMap
  layerAValues : LayerValueMap
  layerBValues : LayerValueMap
  state : PlayheadState
deriving DecidableEq

/-- The whole mutable state of a `Sequencer` instance.  The two
`setInterval` handles are modelled as booleans (`true` = running). -/
structure SeqState where
  state : PlayheadState
  timer : Bool
  mixTimer : Bool
  frameIntervalMs : ℚ
  lastTickAtMs : Option ℚ
  activeProgram : Option Program
  layerAValues : LayerValueMap
  mixTransition : Option MixTransition
deriving DecidableEq

/-- Step frames gathered into a map, later frames overwriting earlier
ones for the same key (JS `Map.set` in the `for` loop). -/
def buildFrameMap (frames : List FeatureFrame) : List (String × List ℚ) :=
  frames.foldl (fun m f => jsSet m (frameKey f.fixtureId f.featureId) (asArray f.value)) []

/-- `Sequencer.buildSequencerValues` (sequencer.ts lines 511-563). -/
def buildSequencerValues (s : SeqState) : LayerValueMap :=
  match s.activeProgram with
  | none => []
  | some prog =>
    if prog.steps.length = 0 then [] else
    let steps := prog.steps
    let currentStep := steps.getD s.state.stepIndex default
    let atProgramStartBoundary : Bool :=
      decide (s.state.stepIndex = 0) && decide (s.state.positionMs ≤ 0)
    let useLoopedPrevious : Bool :=
      s.state.loop && !(s.state.isPlaying && atProgramStartBoundary)
    let previousIndex : ℕ :=
      if s.state.stepIndex > 0 then s.state.stepIndex - 1
      else if useLoopedPrevious then steps.length - 1
      else 0
    let previousStep := steps.getD previousIndex default
    let currentMap := buildFrameMap currentStep.frames
    let prevMap := buildFrameMap previousStep.frames
    let keys := dedupKeys (currentMap.map (fun p => p.1) ++ prevMap.map (fun p => p.1))
    let fadeFrac : ℚ :=
      if s.state.isPlaying then
        if currentStep.fadeMs > 0 then clamp01 (s.state.positionMs / currentStep.fadeMs)
        else 1
      else 1
    keys.filterMap (fun key =>
      let fm := (jsGet prevMap key).getD [0]
      let tm := (jsGet currentMap key).getD [0]
      let len := max fm.length tm.length
      let out := (List.range len).map (fun i =>
        let fromValue : ℚ := fm.getD i 0
        let toValue : ℚ := tm.getD i 0
        if s.state.isBlackout then (0 : ℤ)
        else jsRound (fromValue + (toValue - fromValue) * fadeFrac))
      (elideZero out).map (fun v => (key, v)))

/-! ### Timers and mode transitions -/

/-- `Sequencer.stopMixTimer`. -/
def stopMixTimer (s : SeqState) : SeqState :=
  if s.mixTimer then { s with mixTimer := false } else s

/-- `Sequencer.startMixTimer`. -/
def startMixTimer (s : SeqState) : SeqState :=
  if s.state.isPlaying then s
  else if s.mixTransition.isNone then s
  else if s.mixTimer then s
  else { s with mixTimer := true }

/-- `Sequencer.startTimer` (also stops the mix timer, as in the source). -/
def startTimer (nowMs : ℚ) (s : SeqState) : SeqState :=
  if s.timer then s
  else stopMixTimer { s with lastTickAtMs := some nowMs, timer := true }

/-- `Sequencer.stopTimer`. -/
def stopTimer (s : SeqState) : SeqState :=
  if !s.timer then s
  else { s with timer := false, lastTickAtMs := none }

/-- `Sequencer.beginModeTransition` (`cloneLayerValues` is the identity here). -/
def beginModeTransition (nowMs : ℚ) (toMode : VisibleMixMode)
    (fromValues : LayerValueMap) (s : SeqState) : SeqState :=
  let s := { s with
    mixTransition := some { startedAtMs := nowMs, fromValues := fromValues, toMode := toMode } }
  if s.state.isPlaying then stopMixTimer s else startMixTimer s

/-- `Sequencer.getVisibleMixMode`. -/
def getVisibleMixMode (s : SeqState) : VisibleMixMode :=
  let hasSteps : Bool :=
    match s.activeProgram with
    | some prog => decide (prog.steps.length > 0)
    | none => false
  if s.state.isPlaying && hasSteps then .sequencer else .static

/-- `Sequencer.buildVisibleValues`: returns the visible values and the
state after the transition-completion side effect. -/
def buildVisibleValues (nowMs : ℚ) (s : SeqState) (targetMode : VisibleMixMode)
    (targetValues : LayerValueMap) : LayerValueMap × SeqState :=
  match s.mixTransition with
  | none => (targetValues, s)
  | some transition =>
    if transition.toMode ≠ targetMode then (targetValues, s)
    else
      let progress := clamp01 ((nowMs - transition.startedAtMs) / MODE_SWITCH_FADE_MS)
      let values := interpolateLayerValues transition.fromValues targetValues progress
      if progress ≥ 1 then (values, stopMixTimer { s with mixTransition := none })
      else (values, s)

/-- `Sequencer.buildFrame` (sequencer.ts lines 495-509). -/
def buildFrame (nowMs : ℚ) (s : SeqState) : SequencerFrame × SeqState :=
  let layerAValues := s.layerAValues
  let layerBValues := buildSequencerValues s
  let targetMode := getVisibleMixMode s
  let targetValues := if targetMode = .sequencer then layerBValues else layerAValues
  let (values, s1) := buildVisibleValues nowMs s targetMode targetValues
  (⟨nowMs, values, layerAValues, layerBValues, s.state⟩, s1)

/-- `Sequencer.getFrame`. -/
def getFrame (nowMs : ℚ) (s : SeqState) : SequencerFrame × SeqState :=
  buildFrame nowMs s

/-- `Sequencer.emitFrame`: the emitted frames are returned as a list
(each listener receives every element, in order). -/
def emitFrame (nowMs : ℚ) (s : SeqState) : SeqState × List SequencerFrame :=
  let (frame, s1) := buildFrame nowMs s
  (s1, [frame])

/-- `Sequencer.captureVisibleValues`. -/
def captureVisibleValues (nowMs : ℚ) (s : SeqState) : LayerValueMap × SeqState :=
  let (frame, s1) := buildFrame nowMs s
  (frame.values, s1)

/-! ### Layer A store -/

/-- `Sequencer.setLayerAKey` acting on the layer map; returns the
`changed` bit and the updated map. -/
def setLayerAKeyMap (m : LayerValueMap) (key : String) (value : FeatureValue) :
    Bool × LayerValueMap :=
  let normalized := (asArray value).map clampChannel
  if isZeroValue normalized then
    if (jsGet m key).isSome then (true, jsDelete m key) else (false, m)
  else if valuesEqual (jsGet m key) normalized then (false, m)
  else (true, jsSet m key normalized)

/-- `Sequencer.clearLayerAKey` acting on the layer map. -/
def clearLayerAKeyMap (m : LayerValueMap) (key : String) : Bool × LayerValueMap :=
  if (jsGet m key).isSome then (true, jsDelete m key) else (false, m)

/-- `Sequencer.clearLayerAFixtureKeys` acting on the layer map. -/
def clearLayerAFixtureKeysMap (m : LayerValueMap) (fixtureId : String) :
    Bool × LayerValueMap :=
  let pfx := fixtureId ++ ":"
  let changed := m.any (fun p => p.1.startsWith pfx)
  (changed, m.filter (fun p => !p.1.startsWith pfx))

inductive LayerAOperation where
  | set (fixtureId featureId : String) (value : FeatureValue)
  | clearFeature (fixtureId featureId : String)
  | clearFixture (fixtureId : String)
deriving DecidableEq

/-- One `applyLayerABatch` switch arm acting on the layer map. -/
def applyLayerAOpMap (m : LayerValueMap) : LayerAOperation → Bool × LayerValueMap
  | .set fixtureId featureId value => setLayerAKeyMap m (frameKey fixtureId featureId) value
  | .clearFeature fixtureId featureId => clearLayerAKeyMap m (frameKey fixtureId featureId)
  | .clearFixture fixtureId => clearLayerAFixtureKeysMap m fixtureId

/-- A whole operation list applied in order (ignoring the changed bits). -/
def applyLayerAOpsMap (m : LayerValueMap) (ops : List LayerAOperation) : LayerValueMap :=
  ops.foldl (fun acc op => (applyLayerAOpMap acc op).2) m

/-- `Sequencer.setLayerAValue` (public operation, with frame emission). -/
def setLayerAValue (nowMs : ℚ) (fixtureId featureId : String) (value : FeatureValue)
    (s : SeqState) : SeqState × List SequencerFrame :=
  let captured : Option LayerValueMap × SeqState :=
    if getVisibleMixMode s = .static then
      let (vs, s1) := captureVisibleValues nowMs s
      (some vs, s1)
    else (none, s)
  let s1 := captured.2
  let key := frameKey fixtureId featureId
  let (changed, m1) := setLayerAKeyMap s1.layerAValues key value
  let s2 := { s1 with layerAValues := m1 }
  if !changed then (s2, [])
  else
    let s3 :=
      match captured.1 with
      | some fromValues => beginModeTransition nowMs .static fromValues s2
      | none => s2
    emitFrame nowMs s3

/-- `Sequencer.clearLayerAFeature`. -/
def clearLayerAFeature (nowMs : ℚ) (fixtureId featureId : String)
    (s : SeqState) : SeqState × List SequencerFrame :=
  let captured : Option LayerValueMap × SeqState :=
    if getVisibleMixMode s = .static then
      let (vs, s1) := captureVisibleValues nowMs s
      (some vs, s1)
    else (none, s)
  let s1 := captured.2
  let key := frameKey fixtureId featureId
  let (changed, m1) := clearLayerAKeyMap s1.layerAValues key
  let s2 := { s1 with layerAValues := m1 }
  if !changed then (s2, [])
  else
    let s3 :=
      match captured.1 with
      | some fromValues => beginModeTransition nowMs .static fromValues s2
      | none => s2
    emitFrame nowMs s3

/-- `Sequencer.clearLayerAFixture`. -/
def clearLayerAFixture (nowMs : ℚ) (fixtureId : String)
    (s : SeqState) : SeqState × List SequencerFrame :=
  let captured : Option LayerValueMap × SeqState :=
    if getVisibleMixMode s = .static then
      let (vs, s1) := captureVisibleValues nowMs s
      (some vs, s1)
    else (none, s)
  let s1 := captured.2
  let (changed, m1) := clearLayerAFixtureKeysMap s1.layerAValues fixtureId
  let s2 := { s1 with layerAValues := m1 }
  if !changed then (s2, [])
  else
    let s3 :=
      match captured.1 with
      | some fromValues => beginModeTransition nowMs .static fromValues s2
      | none => s2
    emitFrame nowMs s3

/-- `Sequencer.applyLayerABatch`. -/
def applyLayerABatch (nowMs : ℚ) (operations : List LayerAOperation)
    (s : SeqState) : SeqState × List SequencerFrame :=
  if operations.length = 0 then (s, []) else
  let captured : Option LayerValueMap × SeqState :=
    if getVisibleMixMode s = .static then
      let (vs, s1) := captureVisibleValues nowMs s
      (some vs, s1)
    else (none, s)
  let s1 := captured.2
  let (changed, m1) := operations.foldl
    (fun acc op =>
      let (c, m) := applyLayerAOpMap acc.2 op
      (c || acc.1, m))
    (false, s1.layerAValues)
  let s2 := { s1 with layerAValues := m1 }
  if !changed then (s2, [])
  else
    let s3 :=
      match captured.1 with
      | some fromValues => beginModeTransition nowMs .static fromValues s2
      | none => s2
    emitFrame nowMs s3

/-! ### Transport operations -/

/-- `Sequencer.play`. -/
def play (nowMs : ℚ) (s : SeqState) : SeqState × List SequencerFrame :=
  match s.activeProgram with
  | none => (s, [])
  | some _ =>
    if s.state.isPlaying then (s, [])
    else
      let (fromValues, s1) := captureVisibleValues nowMs s
      let s2 := { s1 with state := { s1.state with
        stepIndex := 0, positionMs := 0, isPlaying := true } }
      let s3 := beginModeTransition nowMs .sequencer fromValues s2
      let (s4, frames) := emitFrame nowMs s3
      (startTimer nowMs s4, frames)

/-- `Sequencer.resume`. -/
def resume (nowMs : ℚ) (s : SeqState) : SeqState × List SequencerFrame :=
  match s.activeProgram with
  | none => (s, [])
  | some _ =>
    if s.state.isPlaying then (s, [])
    else
      let (fromValues, s1) := captureVisibleValues nowMs s
      let s2 := { s1 with state := { s1.state with isPlaying := true } }
      let s3 := beginModeTransition nowMs .sequencer fromValues s2
      let (s4, frames) := emitFrame nowMs s3
      (startTimer nowMs s4, frames)

/-- `Sequencer.ensureProgramStep`, step-list part: extend until
`stepIndex` is a valid index, duplicating the previous step settings. -/
def ensureSteps (stepIndex : ℕ) (steps : List Step) : List Step :=
  if h : steps.length ≤ stepIndex then
    let index := steps.length
    let prev : Option Step := if index > 0 then steps.get? (index - 1) else none
    ensureSteps stepIndex (steps ++
      [{ id := "step-" ++ toString (index + 1),
         durationMs := (prev.map (fun p => p.durationMs)).getD 500,
         fadeMs := (prev.map (fun p => p.fadeMs)).getD 300,
         frames := [] }])
  else steps
termination_by stepIndex + 1 - steps.length
decreasing_by
  simp only [List.length_append, List.length_cons, List.length_nil]
  omega

/-- `Sequencer.ensureProgramStep`. -/
def ensureProgramStep (stepIndex : ℕ) (s : SeqState) : SeqState :=
  match s.activeProgram with
  | none => s
  | some prog =>
    { s with activeProgram := some { prog with steps := ensureSteps stepIndex prog.steps } }

/-- `Sequencer.setStep`: `Math.max(0, Math.floor(stepIndex))` over ℚ input. -/
def setStep (nowMs : ℚ) (stepIndex : ℚ) (s : SeqState) : SeqState × List SequencerFrame :=
  match s.activeProgram with
  | none => (s, [])
  | some _ =>
    let clamped : ℕ := (max 0 ⌊stepIndex⌋).toNat
    let s1 := ensureProgramStep clamped s
    let s2 := { s1 with state := { s1.state with stepIndex := clamped, positionMs := 0 } }
    emitFrame nowMs s2

/-! ### The tick -/

/-- The per-iteration step duration of `Sequencer.tick`:
`(60000 / spm) * (max(1, step.durationMs) / 500)`. -/
def targetStepDurationMs (spm : ℚ) (step : Step) : ℚ :=
  let baseStepDurationMs : ℚ := 500
  let stepScale := max 1 step.durationMs / baseStepDurationMs
  (60000 / spm) * stepScale

/-- The `while` loop inside `Sequencer.tick`, with explicit fuel.
`tick` always supplies enough fuel for the loop to run to completion
under the state invariants (`spm ∈ [1,500]`). -/
def tickLoop (nowMs : ℚ) : ℕ → SeqState → SeqState
  | 0, s => s
  | fuel + 1, s =>
    if !s.state.isPlaying then s else
    match s.activeProgram with
    | none => s
    | some prog =>
      let steps := prog.steps
      let step := steps.getD s.state.stepIndex default
      let target := targetStepDurationMs s.state.spm step
      if s.state.positionMs < target then s
      else
        let s := { s with state :=
          { s.state with positionMs := s.state.positionMs - target } }
        if s.state.stepIndex ≥ steps.length - 1 then
          if s.state.loop then
            tickLoop nowMs fuel { s with state := { s.state with stepIndex := 0 } }
          else
            let s := { s with state := { s.state with
              stepIndex := steps.length - 1, positionMs := 0, isPlaying := false } }
            let fromValues := buildSequencerValues s
            let s := stopTimer s
            beginModeTransition nowMs .static fromValues s
        else
          tickLoop nowMs fuel { s with state := { s.state with stepIndex := s.state.stepIndex + 1 } }

/-- Fuel bound: with `spm ≤ 500` every loop iteration removes at least
`120/500` ms, so this always suffices; only small cases are needed below. -/
def tickFuel (s : SeqState) : ℕ :=
  5 * (max 0 ⌈s.state.positionMs⌉).toNat + 2

/-- `Sequencer.tick` (sequencer.ts lines 375-417). -/
def tick (nowMs : ℚ) (s : SeqState) : SeqState × List SequencerFrame :=
  if s.activeProgram.isNone || !s.state.isPlaying then (s, []) else
  let s1 := ensureProgramStep s.state.stepIndex s
  let steps := (s1.activeProgram.map (fun p => p.steps)).getD []
  if steps.length = 0 then (s1, []) else
  let elapsedMsRaw :=
    match s1.lastTickAtMs with
    | none => s1.frameIntervalMs
    | some t => nowMs - t
  let s2 := { s1 with lastTickAtMs := some nowMs }
  let elapsedMs := max 0 (min 1000 elapsedMsRaw)
  let s3 := { s2 with state := { s2.state with positionMs := s2.state.positionMs + elapsedMs } }
  let s4 := tickLoop nowMs (tickFuel s3) s3
  emitFrame nowMs s4

/-! ### Render packet builder (src/core/render-packet.ts) -/

/-- A feature of a fixture type.  `range` is the optional `(min,max)`
output range (config/types.ts declares it as an optional object with
`min` and `max`). -/
structure FeatureDef where
  id : String
  kind : String
  channels : List ℤ
  range : Option (ℚ × ℚ)
deriving DecidableEq

structure FixtureDef where
  id : String
  channels : ℤ
  features : List FeatureDef
deriving DecidableEq

structure EnvFixture where
  id : String
  fixtureTypeId : String
  -- source field name: universe (a Lean keyword)
  universeId : ℤ
  address : ℤ
deriving DecidableEq

structure EnvironmentDef where
  id : String
  fixtures : List EnvFixture
deriving DecidableEq

structure RuntimeConfig where
  fixtures : List FixtureDef
  environments : List EnvironmentDef
deriving DecidableEq

/-- render-packet.ts `clampDmx`. -/
def clampDmx (value : ℚ) : ℤ :=
  if value < 0 then 0 else if value > 255 then 255 else jsRound value

/-- A 512-byte universe buffer (`new Uint8Array(512)`), as a list of bytes. -/
def zeroDmxBuffer : List ℤ := List.replicate 512 0

/-- `for (let ch = 1; ch <= channels; ch++)` iteration range. -/
def channelRange (channels : ℤ) : List ℤ :=
  (List.range channels.toNat).map (fun i => (i : ℤ) + 1)

/-- The body of the zeroing loop: write `0` at one in-range channel. -/
def zeroChannel (fixture : EnvFixture) (buf : List ℤ) (fixtureChannel : ℤ) : List ℤ :=
  let dmxAddress := fixture.address + fixtureChannel - 1
  if dmxAddress < 1 ∨ dmxAddress > 512 then buf
  else buf.set (dmxAddress - 1).toNat 0

/-- One zero-pass iteration of `buildRenderPacket` (one fixture). -/
def zeroFixtureFootprint (fixtureDefs : List (String × FixtureDef))
    (dmxByUniverse : List (ℤ × List ℤ)) (fixture : EnvFixture) : List (ℤ × List ℤ) :=
  match jsGet fixtureDefs fixture.fixtureTypeId with
  | none => dmxByUniverse
  | some fixtureDef =>
    let buffer := (jsGet dmxByUniverse fixture.universeId).getD zeroDmxBuffer
    let buffer := (channelRange fixtureDef.channels).foldl (zeroChannel fixture) buffer
    jsSet dmxByUniverse fixture.universeId buffer

def zeroFixtureFootprints (fixtureDefs : List (String × FixtureDef))
    (fixtures : List EnvFixture) : List (ℤ × List ℤ) :=
  fixtures.foldl (zeroFixtureFootprint fixtureDefs) []

/-- JS `String.prototype.split(":")` on a char list: empty segments kept. -/
def splitColonChars : List Char → List Char → List String
  | [], acc => [String.mk acc.reverse]
  | c :: rest, acc =>
    if c = ':' then String.mk acc.reverse :: splitColonChars rest []
    else splitColonChars rest (c :: acc)

/-- JS `key.split(":")`. -/
def jsSplitColon (s : String) : List String :=
  splitColonChars s.data []

/-- The body of the value-writing channel loop (one channel of one feature). -/
def writeChannel (fixture : EnvFixture) (featureDef : FeatureDef) (vec : List ℤ)
    (buf : List ℤ) (i : ℕ) : List ℤ :=
  let fixtureChannel := featureDef.channels.getD i 0
  let rawValue : ℚ := (fallbackAt vec i : ℤ)
  let normalized := max 0 (min 255 rawValue)
  let rmin := ((featureDef.range.map (fun r => r.1)).getD 0 : ℚ)
  let rmax := ((featureDef.range.map (fun r => r.2)).getD 255 : ℚ)
  let shouldScaleFrom255 : Bool :=
    decide (rmin = 0) && decide (rmax > 0) && decide (rmax < 255)
  let value : ℚ :=
    if shouldScaleFrom255 then (normalized / 255) * rmax
    else max rmin (min rmax normalized)
  let dmxAddress := fixture.address + fixtureChannel - 1
  if dmxAddress < 1 ∨ dmxAddress > 512 then buf
  else buf.set (dmxAddress - 1).toNat (clampDmx value)

/-- One value-pass iteration of `buildRenderPacket` (one `frame.values` entry). -/
def writeFrameValue (fixtureById : List (String × EnvFixture))
    (fixtureDefs : List (String × FixtureDef))
    (dmxByUniverse : List (ℤ × List ℤ)) (entry : String × List ℤ) : List (ℤ × List ℤ) :=
  let parts := jsSplitColon entry.1
  let fixtureId := parts.getD 0 ""
  match parts.get? 1 with
  | none => dmxByUniverse
  | some featureId =>
    match jsGet fixtureById fixtureId with
    | none => dmxByUniverse
    | some fixture =>
      match jsGet fixtureDefs fixture.fixtureTypeId with
      | none => dmxByUniverse
      | some fixtureDef =>
        match fixtureDef.features.find? (fun feature => feature.id == featureId) with
        | none => dmxByUniverse
        | some featureDef =>
          let uni := fixture.universeId
          let buffer := (jsGet dmxByUniverse uni).getD zeroDmxBuffer
          let buffer :=
            (List.range featureDef.channels.length).foldl
              (writeChannel fixture featureDef entry.2) buffer
          jsSet dmxByUniverse uni buffer

def writeFrameValues (fixtureById : List (String × EnvFixture))
    (fixtureDefs : List (String × FixtureDef))
    (values : LayerValueMap) (dmx0 : List (ℤ × List ℤ)) : List (ℤ × List ℤ) :=
  values.foldl (writeFrameValue fixtureById fixtureDefs) dmx0

/-- `buildRenderPacket` (render-packet.ts lines 22-131), restricted to the
`dmxByUniverse` output (the returned `frame` and `environment` are passed
through unchanged). -/
def buildRenderPacket (values : LayerValueMap) (config : RuntimeConfig)
    (environmentId : String) : Option (List (ℤ × List ℤ)) :=
  match config.environments.find? (fun item => item.id == environmentId) with
  | none => none
  | some environment =>
    let fixtureById := jsMapOfList (environment.fixtures.map (fun f => (f.id, f)))
    let fixtureDefs := jsMapOfList (config.fixtures.map (fun f => (f.id, f)))
    let dmx0 := zeroFixtureFootprints fixtureDefs environment.fixtures
    some (writeFrameValues fixtureById fixtureDefs values dmx0)

/-! ### Art-Net packet (src/outputs/artnet-output.ts) -/

/-- Big-endian 16-bit write of `v` at offset `off` (`writeUInt16BE`). -/
def writeUInt16BE (buf : List ℕ) (v : ℕ) (off : ℕ) : List ℕ :=
  (buf.set off (v / 256 % 256)).set (off + 1) (v % 256)

/-- Little-endian 16-bit write of `v` at offset `off` (`writeUInt16LE`). -/
def writeUInt16LE (buf : List ℕ) (v : ℕ) (off : ℕ) : List ℕ :=
  (buf.set off (v % 256)).set (off + 1) (v / 256 % 256)

/-- ASCII bytes of `"Art-Net\0"`. -/
def artNetMagic : List ℕ := [65, 114, 116, 45, 78, 101, 116, 0]

/-- `buildArtDmxPacket` (artnet-output.ts lines 6-17): 18-byte header
followed by the DMX payload. -/
def buildArtDmxPacket (universeId : ℕ) (dmx : List ℕ) : List ℕ :=
  let header := List.replicate 18 0
  let header := artNetMagic ++ header.drop 8
  let header := writeUInt16LE header 0x5000 8
  let header := writeUInt16BE header 14 10
  let header := header.set 12 0
  let header := header.set 13 0
  let header := writeUInt16LE header (universeId &&& 0x7fff) 14
  let header := writeUInt16BE header dmx.length 16
  header ++ dmx

/-! ### MQTT light pipeline (src/outputs/mqtt-output.ts) -/

namespace Mqtt

/-- mqtt-output.ts `clampByte` (note the non-strict comparisons). -/
def clampByte (value : ℚ) : ℤ :=
  if value ≤ 0 then 0 else if value ≥ 255 then 255 else Chaser.jsRound value

def DEFAULT_MIN_KELVIN : ℚ := 2700
def DEFAULT_MAX_KELVIN : ℚ := 6500

/-- mqtt-output.ts `miredToKelvin`. -/
def miredToKelvin (mired : ℚ) : ℚ :=
  if mired ≤ 0 then DEFAULT_MIN_KELVIN else 1000000 / mired

/-- mqtt-output.ts `kelvinToMired`. -/
def kelvinToMired (kelvin : ℚ) : ℤ :=
  if kelvin ≤ 0 then 370 else Chaser.jsRound (1000000 / kelvin)

/-- mqtt-output.ts `cctValuesFromKelvin`. -/
def cctValuesFromKelvin (kelvin brightness : ℚ) : List ℤ :=
  let safeKelvin := max DEFAULT_MIN_KELVIN (min DEFAULT_MAX_KELVIN kelvin)
  let coolPart := (safeKelvin - DEFAULT_MIN_KELVIN) / (DEFAULT_MAX_KELVIN - DEFAULT_MIN_KELVIN)
  let warmPart := 1 - coolPart
  [clampByte (brightness * warmPart), clampByte (brightness * coolPart)]

/-- mqtt-output.ts `kelvinFromCct`. -/
def kelvinFromCct (ww cw : ℚ) : ℤ :=
  let total := ww + cw
  if total ≤ 0 then (2700 : ℤ)
  else Chaser.jsRound (DEFAULT_MIN_KELVIN + (DEFAULT_MAX_KELVIN - DEFAULT_MIN_KELVIN) * (cw / total))

/-- mqtt-output.ts `toArray` on an already-numeric array. -/
def toArray (values : List ℤ) : List ℤ :=
  values.map (fun item => clampByte (item : ℚ))

/-- JS `values[i] ?? values[values.length - 1] ?? 0`. -/
def lastFallbackAt (values : List ℚ) (i : ℕ) : ℚ :=
  match values.get? i with
  | some v => v
  | none => (values.get? (values.length - 1)).getD 0

/-- mqtt-output.ts `normalizeRgb`. -/
def normalizeRgb (values : List ℚ) : List ℤ :=
  [clampByte (lastFallbackAt values 0),
   clampByte (lastFallbackAt values 1),
   clampByte (lastFallbackAt values 2)]

/-- mqtt-output.ts `normalizeCct`. -/
def normalizeCct (values : List ℚ) : List ℤ :=
  [clampByte (lastFallbackAt values 0),
   clampByte (lastFallbackAt values 1)]

/-- mqtt-output.ts `scaleValues`. -/
def scaleValues (base : List ℤ) (brightness : ℚ) : List ℤ :=
  let scale : ℚ := (clampByte brightness : ℤ) / 255
  base.map (fun value => clampByte ((value : ℚ) * scale))

inductive FixtureLightMode where
  | rgb
  | colorTemp
  | brightness
deriving DecidableEq

structure LightFixtureMeta where
  fixtureId : String
  name : String
  rgbFeatureId : Option String
  cctFeatureId : Option String
  dimmerFeatureId : Option String
deriving DecidableEq

structure FixtureLightState where
  mode : FixtureLightMode
  brightness : ℤ
  baseRgb : List ℤ
  baseCct : List ℤ
deriving DecidableEq

/-- A parsed JSON light-command object payload.  `state` is the result of
`parseOnOff(objectPayload.state) ?? parseOnOff(payload)` (`none` when
neither parses); the other fields are `none` when absent or non-numeric
(`Number.isFinite` fails on them in the source). -/
structure LightPayload where
  state : Option Bool
  brightness : Option ℚ
  color : Option (ℚ × ℚ × ℚ)
  colorTemp : Option ℚ
deriving DecidableEq

/-- List of integers as a rational feature value array. -/
def intArr (vs : List ℤ) : Chaser.FeatureValue :=
  .arr (vs.map (fun v => (v : ℚ)))

/-- The trailing fallback branches of `buildLightOperations`
(dimmer feature, then cct, then rgb, then nothing). -/
def buildLightOpsLower (meta : LightFixtureMeta) (stored : Option FixtureLightState)
    (previous : FixtureLightState) (fixtureId : String) :
    List Chaser.LayerAOperation × Option FixtureLightState :=
  match meta.dimmerFeatureId with
  | some dimmerFeatureId =>
    ([.set fixtureId dimmerFeatureId (.scalar (previous.brightness : ℚ))], some previous)
  | none =>
    match meta.cctFeatureId with
    | some cctFeatureId =>
      let cct := normalizeCct ((scaleValues previous.baseCct (previous.brightness : ℚ)).map
        (fun v => (v : ℚ)))
      ([.set fixtureId cctFeatureId (intArr cct)], some previous)
    | none =>
      match meta.rgbFeatureId with
      | some rgbFeatureId =>
        let rgb := normalizeRgb ((scaleValues previous.baseRgb (previous.brightness : ℚ)).map
          (fun v => (v : ℚ)))
        ([.set fixtureId rgbFeatureId (intArr rgb)], some previous)
      | none => ([], stored)

/-- `MqttOutput.buildLightOperations` (mqtt-output.ts lines 657-766) for a
single fixture.  Returns the queued layer-A operations together with the
updated `lightStateByFixtureId` entry for the fixture (`none` when the
source leaves the map untouched). -/
def buildLightOperations (meta? : Option LightFixtureMeta)
    (stored : Option FixtureLightState) (fixtureId : String)
    (payload : LightPayload) : List Chaser.LayerAOperation × Option FixtureLightState :=
  match meta? with
  | none => ([], stored)
  | some meta =>
    if payload.state = some false then
      match stored with
      | some previous => ([.clearFixture fixtureId], some { previous with brightness := 0 })
      | none => ([.clearFixture fixtureId], none)
    else
      let previous : FixtureLightState := stored.getD
        { mode := if meta.rgbFeatureId.isSome then .rgb
                  else if meta.cctFeatureId.isSome then .colorTemp
                  else .brightness,
          brightness := 255,
          baseRgb := [255, 255, 255],
          baseCct := [255, 255] }
      let brightness : ℤ :=
        match payload.brightness with
        | some b => clampByte b
        | none =>
          if payload.state = some true then
            if previous.brightness = 0 then 255 else previous.brightness
          else previous.brightness
      let previous :=
        match payload.color with
        | some (r, g, b) =>
          if meta.rgbFeatureId.isSome then
            { previous with baseRgb := normalizeRgb [r, g, b], mode := .rgb }
          else previous
        | none => previous
      let previous :=
        match payload.colorTemp with
        | some rawColorTemp =>
          if meta.cctFeatureId.isSome ∧ rawColorTemp > 0 then
            { previous with baseCct := cctValuesFromKelvin (miredToKelvin rawColorTemp) 255,
                            mode := .colorTemp }
          else previous
        | none => previous
      let previous := { previous with brightness := brightness }
      match previous.mode, meta.rgbFeatureId, meta.cctFeatureId with
      | .rgb, some rgbFeatureId, _ =>
        let rgb := normalizeRgb ((scaleValues previous.baseRgb (brightness : ℚ)).map
          (fun v => (v : ℚ)))
        let ops := [Chaser.LayerAOperation.set fixtureId rgbFeatureId (intArr rgb)]
        let ops := ops ++
          (match meta.cctFeatureId with
           | some cctFeatureId => [Chaser.LayerAOperation.clearFeature fixtureId cctFeatureId]
           | none => [])
        let ops := ops ++
          (match meta.dimmerFeatureId with
           | some dimmerFeatureId => [Chaser.LayerAOperation.clearFeature fixtureId dimmerFeatureId]
           | none => [])
        (ops, some previous)
      | .colorTemp, _, some cctFeatureId =>
        let cct := normalizeCct ((scaleValues previous.baseCct (brightness : ℚ)).map
          (fun v => (v : ℚ)))
        let ops := [Chaser.LayerAOperation.set fixtureId cctFeatureId (intArr cct)]
        let ops := ops ++
          (match meta.rgbFeatureId with
           | some rgbFeatureId => [Chaser.LayerAOperation.clearFeature fixtureId rgbFeatureId]
           | none => [])
        let ops := ops ++
          (match meta.dimmerFeatureId with
           | some dimmerFeatureId => [Chaser.LayerAOperation.clearFeature fixtureId dimmerFeatureId]
           | none => [])
        (ops, some previous)
      | _, _, _ =>
        buildLightOpsLower meta stored previous fixtureId

/-- The JSON state payload published to `{base}/light/{fixtureId}/state`. -/
structure LightStatePayload where
  state : String
  brightness : ℤ
  colorMode : FixtureLightMode
  color : Option (ℤ × ℤ × ℤ)
  colorTemp : Option ℤ
deriving DecidableEq

/-- mqtt-output.ts `supportedColorModes(meta)[0]`. -/
def firstSupportedColorMode (meta : LightFixtureMeta) : FixtureLightMode :=
  if meta.rgbFeatureId.isSome then .rgb
  else if meta.cctFeatureId.isSome then .colorTemp
  else .brightness

/-- `MqttOutput.publishLightStates` (mqtt-output.ts lines 498-584), the
loop body for a single fixture: reads the mirrored layer-A values and the
remembered `FixtureLightState`, returns the published payload and the new
remembered state. -/
def publishLightState (meta : LightFixtureMeta) (layerAValues : Chaser.LayerValueMap)
    (previous : Option FixtureLightState) : LightStatePayload × FixtureLightState :=
  let rgb : Option (List ℤ) := meta.rgbFeatureId.map (fun featureId =>
    normalizeRgb ((toArray ((Chaser.jsGet layerAValues
      (Chaser.frameKey meta.fixtureId featureId)).getD [0, 0, 0])).map (fun v => (v : ℚ))))
  let cct : Option (List ℤ) := meta.cctFeatureId.map (fun featureId =>
    normalizeCct ((toArray ((Chaser.jsGet layerAValues
      (Chaser.frameKey meta.fixtureId featureId)).getD [0, 0])).map (fun v => (v : ℚ))))
  let dimmer : ℤ :=
    match meta.dimmerFeatureId with
    | some featureId =>
      clampByte (((toArray ((Chaser.jsGet layerAValues
        (Chaser.frameKey meta.fixtureId featureId)).getD [0])).getD 0 0 : ℤ) : ℚ)
    | none => 0
  let brightnessFromRgb : ℤ :=
    match rgb with
    | some v => max (v.getD 0 0) (max (v.getD 1 0) (v.getD 2 0))
    | none => 0
  let brightnessFromCct : ℤ :=
    match cct with
    | some v => max (v.getD 0 0) (v.getD 1 0)
    | none => 0
  let hasRgb : Bool := rgb.isSome && decide (brightnessFromRgb > 0) && meta.rgbFeatureId.isSome
  let hasCct : Bool := cct.isSome && decide (brightnessFromCct > 0) && meta.cctFeatureId.isSome
  let colorMode : FixtureLightMode :=
    if hasRgb then .rgb
    else if hasCct then .colorTemp
    else if meta.dimmerFeatureId.isSome then .brightness
    else (previous.map (fun p => p.mode)).getD (firstSupportedColorMode meta)
  let brightness : ℤ :=
    if meta.dimmerFeatureId.isSome then dimmer
    else if colorMode = .rgb then
      if hasRgb then
        match previous with
        | some p => if p.mode = .rgb ∧ p.brightness > 0 then p.brightness else brightnessFromRgb
        | none => brightnessFromRgb
      else 0
    else if colorMode = .colorTemp then
      if hasCct then
        match previous with
        | some p =>
          if p.mode = .colorTemp ∧ p.brightness > 0 then p.brightness else brightnessFromCct
        | none => brightnessFromCct
      else 0
    else clampByte ((max dimmer (max brightnessFromRgb brightnessFromCct) : ℤ) : ℚ)
  let brightness := clampByte ((brightness : ℤ) : ℚ)
  let nextState : FixtureLightState := previous.getD
    { mode := colorMode, brightness := 255, baseRgb := [255, 255, 255], baseCct := [255, 255] }
  let nextState := { nextState with mode := colorMode, brightness := brightness }
  let nextState :=
    match rgb with
    | some rgbValues =>
      if colorMode = .rgb then
        if brightness > 0 then
          let reconstructed := normalizeRgb
            (rgbValues.map (fun v => ((v : ℚ) / (brightness : ℚ)) * 255))
          { nextState with baseRgb := reconstructed }
        else
          { nextState with baseRgb := (previous.map (fun p => p.baseRgb)).getD rgbValues }
      else nextState
    | none => nextState
  let nextState :=
    match cct with
    | some cctValues =>
      if colorMode = .colorTemp then
        if brightness > 0 then
          let reconstructed := normalizeCct
            (cctValues.map (fun v => ((v : ℚ) / (brightness : ℚ)) * 255))
          { nextState with baseCct := reconstructed }
        else
          { nextState with baseCct := (previous.map (fun p => p.baseCct)).getD cctValues }
      else nextState
    | none => nextState
  let color : Option (ℤ × ℤ × ℤ) :=
    if meta.rgbFeatureId.isSome ∧ colorMode = .rgb then
      some (clampByte ((nextState.baseRgb.getD 0 0 : ℤ) : ℚ),
            clampByte ((nextState.baseRgb.getD 1 0 : ℤ) : ℚ),
            clampByte ((nextState.baseRgb.getD 2 0 : ℤ) : ℚ))
    else none
  let colorTemp : Option ℤ :=
    if meta.cctFeatureId.isSome ∧ colorMode = .colorTemp then
      some (kelvinToMired ((kelvinFromCct ((nextState.baseCct.getD 0 0 : ℤ) : ℚ)
        ((nextState.baseCct.getD 1 0 : ℤ) : ℚ) : ℤ) : ℚ))
    else none
  (⟨if brightness > 0 then "ON" else "OFF", brightness, colorMode, color, colorTemp⟩, nextState)

end Mqtt

/-! ### Association list lemmas -/

theorem jsGet_nil {κ α : Type} [BEq κ] (k : κ) : jsGet ([] : List (κ × α)) k = none := rfl

theorem jsGet_cons {κ α : Type} [BEq κ] [LawfulBEq κ] [DecidableEq κ]
    (p : κ × α) (m : List (κ × α)) (k : κ) :
    jsGet (p :: m) k = if p.1 = k then some p.2 else jsGet m k := by
  by_cases h : p.1 = k
  · simp [jsGet, List.find?, h]
  · have hb : (p.1 == k) = false := by simpa using h
    simp [jsGet, List.find?, hb, h]

theorem jsGet_eq_none_iff {κ α : Type} [BEq κ] [LawfulBEq κ] [DecidableEq κ]
    (m : List (κ × α)) (k : κ) :
    jsGet m k = none ↔ ∀ p ∈ m, p.1 ≠ k := by
  induction m with
  | nil => simp [jsGet_nil]
  | cons p m ih =>
    rw [jsGet_cons]
    by_cases h : p.1 = k
    · simp [h]
    · rw [if_neg h, ih]
      constructor
      · intro hall q hq
        rcases List.mem_cons.mp hq with rfl | hq2
        · exact h
        · exact hall q hq2
      · intro hall q hq
        exact hall q (List.mem_cons_of_mem _ hq)

theorem jsGet_append {κ α : Type} [BEq κ] [LawfulBEq κ] [DecidableEq κ]
    (m₁ m₂ : List (κ × α)) (k : κ) :
    jsGet (m₁ ++ m₂) k = (jsGet m₁ k).or (jsGet m₂ k) := by
  induction m₁ with
  | nil => simp [jsGet_nil]
  | cons p m ih =>
    rw [List.cons_append, jsGet_cons, jsGet_cons]
    by_cases h : p.1 = k
    · simp [h]
    · simp [h, ih]

theorem jsGet_replace_mem {κ α : Type} [BEq κ] [LawfulBEq κ] [DecidableEq κ]
    (m : List (κ × α)) (k : κ) (v : α)
    (hany : m.any (fun p => p.1 == k) = true) :
    jsGet (m.map (fun p => if p.1 == k then (k, v) else p)) k = some v := by
  induction m with
  | nil => simp at hany
  | cons p m ih =>
    by_cases h : p.1 = k
    · have hb : (p.1 == k) = true := by simpa using h
      simp [List.map_cons, jsGet_cons, hb, h]
    · have hb : (p.1 == k) = false := by simpa using h
      simp only [List.map_cons, hb, Bool.false_eq_true, if_false]
      rw [jsGet_cons, if_neg h]
      apply ih
      simpa [hb] using hany

theorem jsGet_replace_ne {κ α : Type} [BEq κ] [LawfulBEq κ] [DecidableEq κ]
    (m : List (κ × α)) (k k' : κ) (v : α) (hk : k' ≠ k) :
    jsGet (m.map (fun p => if p.1 == k then (k, v) else p)) k' = jsGet m k' := by
  induction m with
  | nil => simp
  | cons p m ih =>
    by_cases h : p.1 = k
    · have hb : (p.1 == k) = true := by simpa using h
      have h1 : ¬((k, v).1 = k') := fun hcon => hk hcon.symm
      have h2 : ¬(p.1 = k') := by
        rw [h]
        exact fun hcon => hk hcon.symm
      simp only [List.map_cons, hb, if_true]
      rw [jsGet_cons, jsGet_cons, if_neg h1, if_neg h2, ih]
    · have hb : (p.1 == k) = false := by simpa using h
      simp only [List.map_cons, hb, Bool.false_eq_true, if_false]
      rw [jsGet_cons, jsGet_cons, ih]

theorem jsGet_jsSet {κ α : Type} [BEq κ] [LawfulBEq κ] [DecidableEq κ]
    (m : List (κ × α)) (k k' : κ) (v : α) :
    jsGet (jsSet m k v) k' = if k' = k then some v else jsGet m k' := by
  unfold jsSet
  by_cases hany : m.any (fun p => p.1 == k) = true
  · rw [if_pos hany]
    by_cases hk : k' = k
    · subst hk
      rw [if_pos rfl, jsGet_replace_mem m k' v hany]
    · rw [if_neg hk, jsGet_replace_ne m k k' v hk]
  · rw [if_neg hany, jsGet_append]
    have hnone : jsGet m k = none := by
      rw [jsGet_eq_none_iff]
      intro p hp hcon
      exact hany (List.any_eq_true.mpr ⟨p, hp, by simp [hcon]⟩)
    by_cases hk : k' = k
    · subst hk
      rw [hnone, jsGet_cons, if_pos rfl]
      simp
    · have hsingle : jsGet ([(k, v)] : List (κ × α)) k' = none := by
        rw [jsGet_cons, if_neg (fun hcon => hk (hcon : k = k').symm)]
        rfl
      rw [hsingle, if_neg hk]
      cases jsGet m k' <;> simp

theorem jsGet_filterKeys {κ α : Type} [BEq κ] [LawfulBEq κ] [DecidableEq κ]
    (m : List (κ × α)) (q : κ → Bool) (k : κ) :
    jsGet (m.filter (fun p => q p.1)) k = if q k then jsGet m k else none := by
  induction m with
  | nil => simp [jsGet_nil]
  | cons p m ih =>
    by_cases hpk : p.1 = k
    · subst hpk
      by_cases hq : q p.1
      · rw [List.filter_cons_of_pos (by simpa using hq), jsGet_cons, jsGet_cons, if_pos hq]
        simp
      · rw [List.filter_cons_of_neg (by simpa using hq), ih,
          if_neg (by simpa using hq), if_neg (by simpa using hq)]
    · by_cases hq : q p.1
      · rw [List.filter_cons_of_pos (by simpa using hq), jsGet_cons, if_neg hpk,
          jsGet_cons, if_neg hpk, ih]
      · rw [List.filter_cons_of_neg (by simpa using hq), ih, jsGet_cons, if_neg hpk]

theorem jsGet_jsDelete {κ α : Type} [BEq κ] [LawfulBEq κ] [DecidableEq κ]
    (m : List (κ × α)) (k k' : κ) :
    jsGet (jsDelete m k) k' = if k' = k then none else jsGet m k' := by
  have h1 := jsGet_filterKeys m (fun x => x != k) k'
  by_cases hk : k' = k
  · subst hk
    rw [if_pos rfl]
    simpa [jsDelete] using h1
  · rw [if_neg hk]
    rw [if_pos (show (k' != k) = true by simp [bne_iff_ne, hk])] at h1
    simpa [jsDelete] using h1

/-! ### dedupKeys lemmas -/

theorem mem_dedupKeys (l : List String) (a : String) : a ∈ dedupKeys l ↔ a ∈ l := by
  induction l using dedupKeys.induct with
  | case1 => simp [dedupKeys]
  | case2 k rest ih =>
    rw [dedupKeys]
    constructor
    · intro h
      rcases List.mem_cons.mp h with rfl | h2
      · exact List.mem_cons_self _ _
      · have h3 := ih.mp h2
        exact List.mem_cons_of_mem _ (List.mem_filter.mp h3).1
    · intro h
      rcases List.mem_cons.mp h with rfl | h2
      · exact List.mem_cons_self _ _
      · by_cases ha : a = k
        · subst ha
          exact List.mem_cons_self _ _
        · refine List.mem_cons_of_mem _ (ih.mpr (List.mem_filter.mpr ⟨h2, ?_⟩))
          simp [bne_iff_ne, ha]

theorem nodup_dedupKeys (l : List String) : (dedupKeys l).Nodup := by
  induction l using dedupKeys.induct with
  | case1 => simp [dedupKeys]
  | case2 k rest ih =>
    rw [dedupKeys]
    refine List.nodup_cons.mpr ⟨?_, ih⟩
    intro hmem
    rw [mem_dedupKeys] at hmem
    have h2 := (List.mem_filter.mp hmem).2
    simp at h2

/-! ### Lookup into the elide-zero key fold -/

/-! ### Lookup into the elide-zero key fold -/

theorem jsGet_filterMap_keys (keys : List String) (f : String → Option (List ℤ))
    (h : keys.Nodup) (k : String) :
    jsGet (keys.filterMap (fun key => (f key).map (fun v => (key, v)))) k =
      if k ∈ keys then f k else none := by
  induction keys with
  | nil => simp [jsGet_nil]
  | cons key rest ih =>
    have hnd := List.nodup_cons.mp h
    cases hf : f key with
    | none =>
      have hstep : (key :: rest).filterMap (fun key => (f key).map (fun v => (key, v))) =
          rest.filterMap (fun key => (f key).map (fun v => (key, v))) := by
        simp [List.filterMap_cons, hf]
      rw [hstep, ih hnd.2]
      by_cases hk : k = key
      · subst hk
        rw [if_neg (by simpa using hnd.1), if_pos (List.mem_cons_self _ _), hf]
      · simp only [List.mem_cons, hk, false_or]
    | some v =>
      have hstep : (key :: rest).filterMap (fun key => (f key).map (fun v => (key, v))) =
          (key, v) :: rest.filterMap (fun key => (f key).map (fun v => (key, v))) := by
        simp [List.filterMap_cons, hf]
      rw [hstep, jsGet_cons]
      by_cases hk : k = key
      · subst hk
        rw [if_pos rfl, if_pos (List.mem_cons_self _ _), hf]
      · rw [if_neg (fun hcon => hk hcon.symm), ih hnd.2]
        simp only [List.mem_cons, hk, false_or]

/-! ### Arithmetic helper lemmas -/

theorem jsRound_zero : jsRound 0 = 0 := by
  rw [jsRound, Int.floor_eq_iff]
  norm_num

theorem clamp01_zero : clamp01 0 = 0 := by
  norm_num [clamp01]

theorem clamp01_of_one_le (q : ℚ) (h : 1 ≤ q) : clamp01 q = 1 := by
  unfold clamp01
  rw [if_neg (by linarith)]
  by_cases h2 : q > 1
  · rw [if_pos h2]
  · rw [if_neg h2]
    linarith

/-! ### Frame and timer lemmas -/

theorem emitFrame_eq (nowMs : ℚ) (s : SeqState) :
    emitFrame nowMs s = ((buildFrame nowMs s).2, [(buildFrame nowMs s).1]) := rfl

theorem buildFrame_snd_of_mix_none (nowMs : ℚ) (s : SeqState)
    (h : s.mixTransition = none) : (buildFrame nowMs s).2 = s := by
  simp [buildFrame, buildVisibleValues, h]

theorem buildFrame_snd_of_progress_lt (nowMs : ℚ) (s : SeqState) (tr : MixTransition)
    (h : s.mixTransition = some tr)
    (hlt : ¬(clamp01 ((nowMs - tr.startedAtMs) / MODE_SWITCH_FADE_MS) ≥ 1)) :
    (buildFrame nowMs s).2 = s := by
  by_cases hm : tr.toMode = getVisibleMixMode s
  · simp [buildFrame, buildVisibleValues, h, hm, hlt]
  · simp [buildFrame, buildVisibleValues, h, hm]

theorem ensureSteps_of_lt (i : ℕ) (steps : List Step) (h : i < steps.length) :
    ensureSteps i steps = steps := by
  rw [ensureSteps]
  rw [dif_neg (by omega)]

theorem ensureProgramStep_of_lt (i : ℕ) (s : SeqState) (prog : Program)
    (hprog : s.activeProgram = some prog) (h : i < prog.steps.length) :
    ensureProgramStep i s = s := by
  simp only [ensureProgramStep, hprog, ensureSteps_of_lt _ _ h]
  have hback : some (⟨prog.id, prog.spm, prog.loop, prog.steps⟩ : Program) = s.activeProgram := by
    rw [hprog]
  rw [hback]

theorem stopTimer_of_timer (s : SeqState) (h : s.timer = true) :
    stopTimer s = { s with timer := false, lastTickAtMs := none } := by
  simp [stopTimer, h]

theorem beginModeTransition_not_playing (nowMs : ℚ) (toMode : VisibleMixMode)
    (fv : LayerValueMap) (s : SeqState) (h : s.state.isPlaying = false) :
    beginModeTransition nowMs toMode fv s =
      { s with mixTransition := some ⟨nowMs, fv, toMode⟩, mixTimer := true } := by
  cases s with
  | mk st tm mtm fi lt ap la mt =>
    simp only at h
    by_cases hm : mtm
    · simp [beginModeTransition, startMixTimer, stopMixTimer, h, hm]
    · simp only [Bool.not_eq_true] at hm
      simp [beginModeTransition, startMixTimer, stopMixTimer, h, hm]

/-! ### tickLoop unfolding lemmas -/

theorem tickLoop_break (nowMs : ℚ) (fuel : ℕ) (s : SeqState) (prog : Program)
    (hprog : s.activeProgram = some prog) (hplay : s.state.isPlaying = true)
    (hlt : s.state.positionMs <
      targetStepDurationMs s.state.spm (prog.steps.getD s.state.stepIndex default)) :
    tickLoop nowMs (fuel + 1) s = s := by
  simp only [tickLoop, hprog, hplay, Bool.not_true, Bool.false_eq_true, if_false]
  rw [if_pos hlt]

theorem tickLoop_advance_mid (nowMs : ℚ) (fuel : ℕ) (s : SeqState) (prog : Program)
    (hprog : s.activeProgram = some prog) (hplay : s.state.isPlaying = true)
    (hge : ¬(s.state.positionMs <
      targetStepDurationMs s.state.spm (prog.steps.getD s.state.stepIndex default)))
    (hmid : ¬(s.state.stepIndex ≥ prog.steps.length - 1)) :
    tickLoop nowMs (fuel + 1) s =
      tickLoop nowMs fuel
        { s with state := { s.state with
            stepIndex := s.state.stepIndex + 1,
            positionMs := s.state.positionMs -
              targetStepDurationMs s.state.spm (prog.steps.getD s.state.stepIndex default) } } := by
  simp only [tickLoop, hprog, hplay, Bool.not_true, Bool.false_eq_true, if_false]
  rw [if_neg hge, if_neg hmid]

theorem tickLoop_wrap (nowMs : ℚ) (fuel : ℕ) (s : SeqState) (prog : Program)
    (hprog : s.activeProgram = some prog) (hplay : s.state.isPlaying = true)
    (hge : ¬(s.state.positionMs <
      targetStepDurationMs s.state.spm (prog.steps.getD s.state.stepIndex default)))
    (hlast : s.state.stepIndex ≥ prog.steps.length - 1)
    (hloop : s.state.loop = true) :
    tickLoop nowMs (fuel + 1) s =
      tickLoop nowMs fuel
        { s with state := { s.state with
            stepIndex := 0,
            positionMs := s.state.positionMs -
              targetStepDurationMs s.state.spm (prog.steps.getD s.state.stepIndex default) } } := by
  simp only [tickLoop, hprog, hplay, Bool.not_true, Bool.false_eq_true, if_false]
  rw [if_neg hge, if_pos hlast, hloop, if_pos rfl]

theorem tickLoop_finalize (nowMs : ℚ) (fuel : ℕ) (s : SeqState) (prog : Program)
    (hprog : s.activeProgram = some prog) (hplay : s.state.isPlaying = true)
    (hge : ¬(s.state.positionMs <
      targetStepDurationMs s.state.spm (prog.steps.getD s.state.stepIndex default)))
    (hlast : s.state.stepIndex ≥ prog.steps.length - 1)
    (hloop : s.state.loop = false) :
    tickLoop nowMs (fuel + 1) s =
      beginModeTransition nowMs .static
        (buildSequencerValues { s with state := { s.state with
          stepIndex := prog.steps.length - 1, positionMs := 0, isPlaying := false } })
        (stopTimer { s with state := { s.state with
          stepIndex := prog.steps.length - 1, positionMs := 0, isPlaying := false } }) := by
  simp only [tickLoop, hprog, hplay, Bool.not_true, Bool.false_eq_true, if_false]
  rw [if_neg hge, if_pos hlast, hloop]
  rw [if_neg (by simp : ¬(false = true))]

/-! ### Claim C1: layer B fade interpolation -/

/-- Modelled from the spec (claim C1): the previous-step index rule.
`S_{i-1}` if `i > 0`, else the last step when `loop` holds and the
playhead is not at the program-start boundary (`positionMs ≤ 0`) while
playing, else the current step (index 0). -/
def specPrevIndex (len i : ℕ) (loopFlag : Bool) (p : ℚ) : ℕ :=
  if 0 < i then i - 1 else if loopFlag = true ∧ 0 < p then len - 1 else 0

/-- Modelled from the spec (claim C1): per-key value
`round(prev + (curr − prev) · r)` over the union of channel counts,
missing keys and channels read as 0, all-zero vectors elided. -/
def specInterpEntry (prevM currM : List (String × List ℚ)) (r : ℚ) (key : String) :
    Option (List ℤ) :=
  let fm := (jsGet prevM key).getD [0]
  let tm := (jsGet currM key).getD [0]
  elideZero ((List.range (max fm.length tm.length)).map (fun j =>
    jsRound (fm.getD j 0 + (tm.getD j 0 - fm.getD j 0) * r)))

/-- C1: while playing (not blacked out) with the playhead at a valid step
`i` with `fadeMs = d > 0` and `positionMs = p`, `buildSequencerValues`
assigns every key of either step the vector
`round(prev + (curr − prev) · clamp01(p/d))` (missing keys/channels read
as 0, all-zero results elided), where the previous step is `S_{i−1}` for
`i > 0`, else the last step when `loop` holds and we are not at the
program-start boundary, else step 0 itself; and for `p ≥ d` the result is
the (rounded, zero-padded) current step value per key. -/
theorem c1_buildSequencerValues_fade_interpolation
    (prog : Program) (s : SeqState) (p d : ℚ)
    (hprog : s.activeProgram = some prog)
    (hstep : s.state.stepIndex < prog.steps.length)
    (hplay : s.state.isPlaying = true)
    (hbo : s.state.isBlackout = false)
    (hp : s.state.positionMs = p)
    (hd : (prog.steps.getD s.state.stepIndex default).fadeMs = d)
    (hdpos : 0 < d) :
    (∀ key,
      jsGet (buildSequencerValues s) key =
        specInterpEntry
          (buildFrameMap (prog.steps.getD
            (specPrevIndex prog.steps.length s.state.stepIndex s.state.loop p) default).frames)
          (buildFrameMap (prog.steps.getD s.state.stepIndex default).frames)
          (clamp01 (p / d)) key) ∧
    (d ≤ p → ∀ key,
      jsGet (buildSequencerValues s) key =
        (let tm := (jsGet
          (buildFrameMap (prog.steps.getD s.state.stepIndex default).frames) key).getD [0]
         let fm := (jsGet (buildFrameMap (prog.steps.getD
           (specPrevIndex prog.steps.length s.state.stepIndex s.state.loop p) default).frames)
             key).getD [0]
         elideZero ((List.range (max fm.length tm.length)).map (fun j =>
           jsRound (tm.getD j 0))))) := by
  have hmain : ∀ key,
      jsGet (buildSequencerValues s) key =
        specInterpEntry
          (buildFrameMap (prog.steps.getD
            (specPrevIndex prog.steps.length s.state.stepIndex s.state.loop p) default).frames)
          (buildFrameMap (prog.steps.getD s.state.stepIndex default).frames)
          (clamp01 (p / d)) key := by
    intro key
    have hlen : ¬(prog.steps.length = 0) := by omega
    have hidx :
        (if s.state.stepIndex > 0 then s.state.stepIndex - 1
         else if (s.state.loop &&
              !(decide (s.state.stepIndex = 0) && decide (p ≤ 0))) = true
         then prog.steps.length - 1 else 0)
        = specPrevIndex prog.steps.length s.state.stepIndex s.state.loop p := by
      unfold specPrevIndex
      by_cases hi : 0 < s.state.stepIndex
      · rw [if_pos hi, if_pos hi]
      · rw [if_neg hi, if_neg hi]
        have hi0 : s.state.stepIndex = 0 := by omega
        by_cases hloop : s.state.loop
        · by_cases hple : p ≤ 0
          · rw [if_neg (by simp [hloop, hi0, hple])]
            rw [if_neg (by
              intro hcon
              exact absurd hcon.2 (not_lt.mpr hple))]
          · rw [if_pos (by simp [hloop, hi0, hple])]
            rw [if_pos ⟨hloop, lt_of_not_ge hple⟩]
        · rw [if_neg (by simp [hloop]), if_neg (by
            intro hcon
            exact hloop hcon.1)]
    rw [buildSequencerValues]
    rw [hprog]
    simp only [hlen, if_false, hplay, hbo, hp, hd, hdpos, if_pos, Bool.true_and,
      if_true, Bool.false_eq_true]
    rw [hidx]
    rw [jsGet_filterMap_keys _ _ (nodup_dedupKeys _) key]
    by_cases hkey : key ∈ dedupKeys
        ((buildFrameMap (prog.steps.getD s.state.stepIndex default).frames).map (fun q => q.1) ++
          (buildFrameMap (prog.steps.getD
            (specPrevIndex prog.steps.length s.state.stepIndex s.state.loop p) default).frames).map
              (fun q => q.1))
    · rw [if_pos hkey]
      rfl
    · rw [if_neg hkey]
      rw [mem_dedupKeys, List.mem_append] at hkey
      push_neg at hkey
      have hcurr : jsGet (buildFrameMap (prog.steps.getD s.state.stepIndex default).frames) key
          = none := by
        rw [jsGet_eq_none_iff]
        intro q hq hcon
        exact hkey.1 (List.mem_map.mpr ⟨q, hq, hcon⟩)
      have hprev : jsGet (buildFrameMap (prog.steps.getD
          (specPrevIndex prog.steps.length s.state.stepIndex s.state.loop p) default).frames) key
          = none := by
        rw [jsGet_eq_none_iff]
        intro q hq hcon
        exact hkey.2 (List.mem_map.mpr ⟨q, hq, hcon⟩)
      rw [specInterpEntry]
      simp only [hcurr, hprev, Option.getD_none]
      simp [elideZero, isZeroValue, jsRound_zero]
  refine ⟨hmain, fun hpd key => ?_⟩
  rw [hmain key]
  have h1 : clamp01 (p / d) = 1 := clamp01_of_one_le _ ((one_le_div hdpos).mpr hpd)
  rw [h1]
  simp only [specInterpEntry, mul_one]
  have harr : ∀ a b : ℚ, a + (b - a) = b := fun a b => by ring
  simp only [harr]

/-- Witness program for C1 (spec §8 scenario 2). -/
def c1WitnessProg : Program :=
  { id := "p1", spm := 120, loop := true,
    steps :=
      [{ id := "s1", durationMs := 500, fadeMs := 500,
         frames := [⟨"fixtureA", "featureR", .arr [255, 0, 0]⟩] },
       { id := "s2", durationMs := 500, fadeMs := 500,
         frames := [⟨"fixtureA", "featureR", .arr [0, 0, 255]⟩] }] }

/-- Witness state for C1: playhead at step 1, position 250 ms. -/
def c1WitnessState : SeqState :=
  { state := { isPlaying := true, isBlackout := false, programId := some "p1",
               stepIndex := 1, positionMs := 250, spm := 120, loop := true },
    timer := true, mixTimer := false, frameIntervalMs := 33,
    lastTickAtMs := some 0, activeProgram := some c1WitnessProg,
    layerAValues := [], mixTransition := none }

theorem c1_witness :
    (1 < c1WitnessProg.steps.length ∧ (0 : ℚ) < 500) ∧
    (∀ key,
      jsGet (buildSequencerValues c1WitnessState) key =
        specInterpEntry
          (buildFrameMap (c1WitnessProg.steps.getD
            (specPrevIndex c1WitnessProg.steps.length 1 true 250) default).frames)
          (buildFrameMap (c1WitnessProg.steps.getD 1 default).frames)
          (clamp01 (250 / 500)) key) :=
  ⟨⟨by decide, by decide⟩,
   (c1_buildSequencerValues_fade_interpolation c1WitnessProg c1WitnessState 250 500
     rfl (by decide) rfl rfl rfl rfl (by decide)).1⟩

/-! ### Claim C2: tick step advance -/

/-- C2: one sequencer tick while playing.  With wall-clock delta clamped
to `[0,1000]`, positions advance by the delta; while
`positionMs ≥ targetDuration = (60000/spm)·(max(1,durationMs)/500)` the
loop subtracts and advances, wrapping to 0 at the last step when `loop`
holds, and otherwise clamping at the last step, zeroing the position,
stopping playback and the tick timer, and starting a cross-fade to
static mode whose from-snapshot is the still-sequencer-mode values;
exactly one frame is emitted per tick. -/
theorem c2_tick_step_advance (prog : Program) (s : SeqState) (nowMs t : ℚ)
    (hprog : s.activeProgram = some prog)
    (hplay : s.state.isPlaying = true)
    (hstep : s.state.stepIndex < prog.steps.length)
    (hmix : s.mixTransition = none)
    (hlast : s.lastTickAtMs = some t) :
    (tick nowMs s).2.length = 1 ∧
    (s.state.positionMs + max 0 (min 1000 (nowMs - t)) <
        targetStepDurationMs s.state.spm (prog.steps.getD s.state.stepIndex default) →
      (tick nowMs s).1 = { s with
        state := { s.state with
          positionMs := s.state.positionMs + max 0 (min 1000 (nowMs - t)) },
        lastTickAtMs := some nowMs }) ∧
    (¬(s.state.positionMs + max 0 (min 1000 (nowMs - t)) <
        targetStepDurationMs s.state.spm (prog.steps.getD s.state.stepIndex default)) →
      ¬(s.state.stepIndex ≥ prog.steps.length - 1) →
      s.state.positionMs + max 0 (min 1000 (nowMs - t)) -
          targetStepDurationMs s.state.spm (prog.steps.getD s.state.stepIndex default) <
        targetStepDurationMs s.state.spm (prog.steps.getD (s.state.stepIndex + 1) default) →
      (tick nowMs s).1 = { s with
        state := { s.state with
          stepIndex := s.state.stepIndex + 1,
          positionMs := s.state.positionMs + max 0 (min 1000 (nowMs - t)) -
            targetStepDurationMs s.state.spm (prog.steps.getD s.state.stepIndex default) },
        lastTickAtMs := some nowMs }) ∧
    (¬(s.state.positionMs + max 0 (min 1000 (nowMs - t)) <
        targetStepDurationMs s.state.spm (prog.steps.getD s.state.stepIndex default)) →
      s.state.stepIndex ≥ prog.steps.length - 1 →
      s.state.loop = true →
      s.state.positionMs + max 0 (min 1000 (nowMs - t)) -
          targetStepDurationMs s.state.spm (prog.steps.getD s.state.stepIndex default) <
        targetStepDurationMs s.state.spm (prog.steps.getD 0 default) →
      (tick nowMs s).1 = { s with
        state := { s.state with
          stepIndex := 0,
          positionMs := s.state.positionMs + max 0 (min 1000 (nowMs - t)) -
            targetStepDurationMs s.state.spm (prog.steps.getD s.state.stepIndex default) },
        lastTickAtMs := some nowMs }) ∧
    (¬(s.state.positionMs + max 0 (min 1000 (nowMs - t)) <
        targetStepDurationMs s.state.spm (prog.steps.getD s.state.stepIndex default)) →
      s.state.stepIndex ≥ prog.steps.length - 1 →
      s.state.loop = false →
      s.timer = true →
      (tick nowMs s).1 = { s with
        state := { s.state with
          stepIndex := prog.steps.length - 1, positionMs := 0, isPlaying := false },
        timer := false,
        mixTimer := true,
        lastTickAtMs := none,
        mixTransition := some
          ⟨nowMs,
           buildSequencerValues { s with
             state := { s.state with
               stepIndex := prog.steps.length - 1, positionMs := 0, isPlaying := false },
             lastTickAtMs := some nowMs },
           .static⟩ }) := by
  have hlen0 : ¬(prog.steps.length = 0) := by omega
  have htick : tick nowMs s =
      emitFrame nowMs (tickLoop nowMs
        (tickFuel { s with
          lastTickAtMs := some nowMs,
          state := { s.state with
            positionMs := s.state.positionMs + max 0 (min 1000 (nowMs - t)) } })
        { s with
          lastTickAtMs := some nowMs,
          state := { s.state with
            positionMs := s.state.positionMs + max 0 (min 1000 (nowMs - t)) } }) := by
    simp only [tick, hprog, Option.isNone_some, hplay, Bool.not_true, Bool.or_self,
      Bool.false_eq_true, if_false,
      ensureProgramStep_of_lt _ _ _ hprog hstep, Option.map_some', Option.getD_some,
      hlen0, hlast]
  refine ⟨?_, ?_, ?_, ?_, ?_⟩
  · rw [htick, emitFrame_eq]
    simp
  · intro hc
    rw [htick]
    set S3 : SeqState := { s with
      lastTickAtMs := some nowMs,
      state := { s.state with
        positionMs := s.state.positionMs + max 0 (min 1000 (nowMs - t)) } } with hS3
    obtain ⟨K, hK⟩ : ∃ K, tickFuel S3 = K + 1 :=
      ⟨tickFuel S3 - 1, by simp only [tickFuel]; omega⟩
    rw [hK]
    rw [tickLoop_break nowMs K S3 prog hprog hplay hc]
    rw [emitFrame_eq]
    rw [buildFrame_snd_of_mix_none nowMs S3 hmix]
  · intro hge hmid hc
    rw [htick]
    set S3 : SeqState := { s with
      lastTickAtMs := some nowMs,
      state := { s.state with
        positionMs := s.state.positionMs + max 0 (min 1000 (nowMs - t)) } } with hS3
    obtain ⟨K, hK⟩ : ∃ K, tickFuel S3 = K + 1 + 1 :=
      ⟨tickFuel S3 - 2, by simp only [tickFuel]; omega⟩
    rw [hK]
    rw [tickLoop_advance_mid nowMs (K + 1) S3 prog hprog hplay hge hmid]
    set S4 : SeqState := { S3 with state := { S3.state with
      stepIndex := S3.state.stepIndex + 1,
      positionMs := S3.state.positionMs -
        targetStepDurationMs S3.state.spm (prog.steps.getD S3.state.stepIndex default) } }
      with hS4
    rw [tickLoop_break nowMs K S4 prog hprog hplay hc]
    rw [emitFrame_eq]
    rw [buildFrame_snd_of_mix_none nowMs S4 hmix]
  · intro hge hlastidx hloop hc
    rw [htick]
    set S3 : SeqState := { s with
      lastTickAtMs := some nowMs,
      state := { s.state with
        positionMs := s.state.positionMs + max 0 (min 1000 (nowMs - t)) } } with hS3
    obtain ⟨K, hK⟩ : ∃ K, tickFuel S3 = K + 1 + 1 :=
      ⟨tickFuel S3 - 2, by simp only [tickFuel]; omega⟩
    rw [hK]
    rw [tickLoop_wrap nowMs (K + 1) S3 prog hprog hplay hge hlastidx hloop]
    set S4 : SeqState := { S3 with state := { S3.state with
      stepIndex := 0,
      positionMs := S3.state.positionMs -
        targetStepDurationMs S3.state.spm (prog.steps.getD S3.state.stepIndex default) } }
      with hS4
    rw [tickLoop_break nowMs K S4 prog hprog hplay hc]
    rw [emitFrame_eq]
    rw [buildFrame_snd_of_mix_none nowMs S4 hmix]
  · intro hge hlastidx hloop htimer
    rw [htick]
    set S3 : SeqState := { s with
      lastTickAtMs := some nowMs,
      state := { s.state with
        positionMs := s.state.positionMs + max 0 (min 1000 (nowMs - t)) } } with hS3
    obtain ⟨K, hK⟩ : ∃ K, tickFuel S3 = K + 1 :=
      ⟨tickFuel S3 - 1, by simp only [tickFuel]; omega⟩
    rw [hK]
    rw [tickLoop_finalize nowMs K S3 prog hprog hplay hge hlastidx hloop]
    rw [stopTimer_of_timer _ (by exact htimer)]
    rw [beginModeTransition_not_playing nowMs _ _ _ (by rfl)]
    rw [emitFrame_eq]
    rw [buildFrame_snd_of_progress_lt nowMs _
      ⟨nowMs, buildSequencerValues { S3 with state := { S3.state with
        stepIndex := prog.steps.length - 1, positionMs := 0, isPlaying := false } },
        VisibleMixMode.static⟩ rfl
      (by
        rw [sub_self]
        norm_num [clamp01, MODE_SWITCH_FADE_MS])]

/-- Witness program for C2: two 500 ms steps at 120 spm. -/
def c2WitnessProg : Program :=
  { id := "p2", spm := 120, loop := true,
    steps :=
      [{ id := "s1", durationMs := 500, fadeMs := 0, frames := [] },
       { id := "s2", durationMs := 500, fadeMs := 0, frames := [] }] }

/-- Witness state for C2: playing at step 0, position 0. -/
def c2WitnessState : SeqState :=
  { state := { isPlaying := true, isBlackout := false, programId := some "p2",
               stepIndex := 0, positionMs := 0, spm := 120, loop := true },
    timer := true, mixTimer := false, frameIntervalMs := 33,
    lastTickAtMs := some 0, activeProgram := some c2WitnessProg,
    layerAValues := [], mixTransition := none }

theorem c2_witness :
    ((0 : ℚ) + max 0 (min 1000 ((33 : ℚ) - 0)) <
      targetStepDurationMs 120 (c2WitnessProg.steps.getD 0 default)) ∧
    (tick 33 c2WitnessState).2.length = 1 ∧
    (tick 33 c2WitnessState).1 = { c2WitnessState with
      state := { c2WitnessState.state with
        positionMs := 0 + max 0 (min 1000 ((33 : ℚ) - 0)) },
      lastTickAtMs := some 33 } := by
  have h := c2_tick_step_advance c2WitnessProg c2WitnessState 33 0
    rfl rfl (by decide) rfl rfl
  have hc : (0 : ℚ) + max 0 (min 1000 ((33 : ℚ) - 0)) <
      targetStepDurationMs 120 (c2WitnessProg.steps.getD 0 default) := by
    norm_num [targetStepDurationMs, c2WitnessProg, max_def, min_def]
  exact ⟨hc, h.1, h.2.1 hc⟩

/-! ### Shared structural lemmas for the transport operations -/

theorem buildFrame_snd_fields (nowMs : ℚ) (x : SeqState) :
    ((buildFrame nowMs x).2).state = x.state ∧
    ((buildFrame nowMs x).2).layerAValues = x.layerAValues ∧
    ((buildFrame nowMs x).2).activeProgram = x.activeProgram ∧
    ((buildFrame nowMs x).2).timer = x.timer ∧
    ((buildFrame nowMs x).2).lastTickAtMs = x.lastTickAtMs ∧
    ((buildFrame nowMs x).2).frameIntervalMs = x.frameIntervalMs := by
  have h : (buildFrame nowMs x).2 =
      (buildVisibleValues nowMs x (getVisibleMixMode x)
        (if getVisibleMixMode x = .sequencer then buildSequencerValues x
         else x.layerAValues)).2 := rfl
  rw [h]
  cases hm : x.mixTransition with
  | none => simp [buildVisibleValues, hm]
  | some tr =>
    simp only [buildVisibleValues, hm]
    split_ifs <;> simp [stopMixTimer] <;> split_ifs <;> simp

theorem ensureProgramStep_fields (i : ℕ) (s : SeqState) :
    (ensureProgramStep i s).state = s.state ∧
    (ensureProgramStep i s).layerAValues = s.layerAValues ∧
    (ensureProgramStep i s).mixTransition = s.mixTransition ∧
    (ensureProgramStep i s).timer = s.timer ∧
    (ensureProgramStep i s).mixTimer = s.mixTimer ∧
    (ensureProgramStep i s).lastTickAtMs = s.lastTickAtMs := by
  cases hap : s.activeProgram <;> simp [ensureProgramStep, hap]

/-! ### Claim C10: play / resume are no-ops when playing or program-less -/

/-- C10: when the sequencer is already playing, or no active program is
set, `play()` and `resume()` leave the whole state unchanged (playhead,
layer A, mix transition, timers) and emit no frame. -/
theorem c10_play_resume_noop (s : SeqState) (nowMs : ℚ)
    (h : s.activeProgram = none ∨ s.state.isPlaying = true) :
    play nowMs s = (s, []) ∧ resume nowMs s = (s, []) := by
  rcases h with h | h
  · constructor <;> simp [play, resume, h]
  · cases hap : s.activeProgram with
    | none => constructor <;> simp [play, resume, hap]
    | some prog => constructor <;> simp [play, resume, hap, h]

/-- A playing state used to witness C10. -/
def c10WitnessState : SeqState :=
  { state := { isPlaying := true, isBlackout := false, programId := some "p1",
               stepIndex := 0, positionMs := 10, spm := 120, loop := true },
    timer := true, mixTimer := false, frameIntervalMs := 33,
    lastTickAtMs := some 0,
    activeProgram := some { id := "p1", spm := 120, loop := true, steps := [] },
    layerAValues := [("f:x", [9])], mixTransition := none }

theorem c10_witness :
    c10WitnessState.state.isPlaying = true ∧
    play 7 c10WitnessState = (c10WitnessState, []) ∧
    resume 7 c10WitnessState = (c10WitnessState, []) :=
  ⟨rfl,
   (c10_play_resume_noop c10WitnessState 7 (Or.inr rfl)).1,
   (c10_play_resume_noop c10WitnessState 7 (Or.inr rfl)).2⟩

/-! ### Claim C3: setStep clamping (corrected) -/

/-- One-step program used for the C3 counterexample. -/
def c3CexProg : Program :=
  { id := "p3", spm := 120, loop := true,
    steps := [{ id := "s1", durationMs := 500, fadeMs := 300, frames := [] }] }

def c3CexState : SeqState :=
  { state := { isPlaying := false, isBlackout := false, programId := some "p3",
               stepIndex := 0, positionMs := 0, spm := 120, loop := true },
    timer := false, mixTimer := false, frameIntervalMs := 33,
    lastTickAtMs := none, activeProgram := some c3CexProg,
    layerAValues := [], mixTransition := none }

/-- C3 counterexample: on a one-step program, `setStep(3)` sets
`stepIndex` to 3, not to `clamp(3, 0, max(0, stepCount−1)) = 0`; the
resulting index exceeds the pre-call `stepCount − 1`. -/
theorem c3_counterexample :
    (setStep 0 3 c3CexState).1.state.stepIndex = 3 ∧
    min 3 (max 0 (c3CexProg.steps.length - 1)) = 0 := by
  have hfl0 : ⌊(3 : ℚ)⌋ = 3 := by norm_num
  have hfl : ((max 0 ⌊(3 : ℚ)⌋).toNat : ℕ) = 3 := by
    rw [hfl0]
    rfl
  have hset : setStep 0 3 c3CexState =
      emitFrame 0 { ensureProgramStep (max 0 ⌊(3 : ℚ)⌋).toNat c3CexState with
        state := { (ensureProgramStep (max 0 ⌊(3 : ℚ)⌋).toNat c3CexState).state with
          stepIndex := (max 0 ⌊(3 : ℚ)⌋).toNat, positionMs := 0 } } := rfl
  rw [hset, emitFrame_eq]
  constructor
  · rw [(buildFrame_snd_fields 0 _).1]
    exact hfl
  · decide

/-- C3 (amended): with an active program, `setStep(i)` sets `stepIndex`
to `max(0, floor(i))` (extending the program so that index exists),
sets `positionMs` to 0 and emits one frame; the result stays within the
pre-call step count only when `floor(i)` was already a valid index. -/
theorem c3_setStep_floor (prog : Program) (s : SeqState) (i nowMs : ℚ)
    (hprog : s.activeProgram = some prog) :
    (setStep nowMs i s).1.state.stepIndex = (max 0 ⌊i⌋).toNat ∧
    (setStep nowMs i s).1.state.positionMs = 0 ∧
    (setStep nowMs i s).2.length = 1 ∧
    ((max 0 ⌊i⌋).toNat < prog.steps.length →
      (setStep nowMs i s).1.state.stepIndex ≤ prog.steps.length - 1) := by
  have hset : setStep nowMs i s =
      emitFrame nowMs { ensureProgramStep (max 0 ⌊i⌋).toNat s with
        state := { (ensureProgramStep (max 0 ⌊i⌋).toNat s).state with
          stepIndex := (max 0 ⌊i⌋).toNat, positionMs := 0 } } := by
    simp only [setStep, hprog]
  have hstate := (buildFrame_snd_fields nowMs
    { ensureProgramStep (max 0 ⌊i⌋).toNat s with
      state := { (ensureProgramStep (max 0 ⌊i⌋).toNat s).state with
        stepIndex := (max 0 ⌊i⌋).toNat, positionMs := 0 } }).1
  refine ⟨?_, ?_, ?_, fun hlt => ?_⟩
  · rw [hset, emitFrame_eq]
    simp only [hstate]
  · rw [hset, emitFrame_eq]
    simp only [hstate]
  · rw [hset, emitFrame_eq]
    simp
  · rw [hset, emitFrame_eq]
    simp only [hstate]
    omega

/-- Two-step program used to witness the amended C3. -/
def c3WitnessProg : Program :=
  { id := "p3w", spm := 120, loop := true,
    steps := [{ id := "s1", durationMs := 500, fadeMs := 300, frames := [] },
              { id := "s2", durationMs := 500, fadeMs := 300, frames := [] }] }

def c3WitnessState : SeqState :=
  { state := { isPlaying := false, isBlackout := false, programId := some "p3w",
               stepIndex := 0, positionMs := 0, spm := 120, loop := true },
    timer := false, mixTimer := false, frameIntervalMs := 33,
    lastTickAtMs := none, activeProgram := some c3WitnessProg,
    layerAValues := [], mixTransition := none }

theorem c3_witness :
    c3WitnessState.activeProgram = some c3WitnessProg ∧
    ((setStep 0 1 c3WitnessState).1.state.stepIndex = (max 0 ⌊(1 : ℚ)⌋).toNat ∧
     (setStep 0 1 c3WitnessState).1.state.positionMs = 0 ∧
     (setStep 0 1 c3WitnessState).2.length = 1 ∧
     ((max 0 ⌊(1 : ℚ)⌋).toNat < c3WitnessProg.steps.length →
       (setStep 0 1 c3WitnessState).1.state.stepIndex ≤ c3WitnessProg.steps.length - 1)) :=
  ⟨rfl, c3_setStep_floor c3WitnessProg c3WitnessState 1 0 rfl⟩

/-! ### Claim C4: setStep auto-extension -/

/-- The empty step that `ensureProgramStep` appends at (0-based) index
`idx`: id `step-{idx+1}`, previous duration and fade, no frames. -/
def appendedStep (dur fade : ℚ) (idx : ℕ) : Step :=
  { id := "step-" ++ toString (idx + 1), durationMs := dur, fadeMs := fade, frames := [] }

theorem ensureSteps_append : ∀ (n t : ℕ) (steps : List Step),
    t + 1 - steps.length = n → steps ≠ [] →
    ensureSteps t steps = steps ++
      (List.range' steps.length (t + 1 - steps.length)).map
        (appendedStep (steps.getD (steps.length - 1) default).durationMs
          (steps.getD (steps.length - 1) default).fadeMs) := by
  intro n
  induction n using Nat.strong_induction_on with
  | _ n ih =>
    intro t steps hn hne
    by_cases h : steps.length ≤ t
    · have hlenpos : 0 < steps.length := List.length_pos.mpr hne
      set D := steps.getD (steps.length - 1) default with hD
      have hprev : (if steps.length > 0 then steps.get? (steps.length - 1) else none) =
          some D := by
        rw [if_pos hlenpos, hD]
        rw [List.getD_eq_getD_get?]
        cases hq : steps.get? (steps.length - 1) with
        | none =>
          rw [List.get?_eq_none] at hq
          omega
        | some q => rfl
      rw [ensureSteps, dif_pos h]
      simp only [hprev, Option.map_some', Option.getD_some]
      rw [show (⟨"step-" ++ toString (steps.length + 1), D.durationMs, D.fadeMs, []⟩ : Step) =
        appendedStep D.durationMs D.fadeMs steps.length from rfl]
      have hrec := ih (t + 1 - (steps.length + 1)) (by omega) t
        (steps ++ [appendedStep D.durationMs D.fadeMs steps.length])
        (by simp) (by simp)
      rw [hrec]
      have hlast : ((steps ++ [appendedStep D.durationMs D.fadeMs steps.length]).getD
          ((steps ++ [appendedStep D.durationMs D.fadeMs steps.length]).length - 1) default) =
          appendedStep D.durationMs D.fadeMs steps.length := by
        simp only [List.length_append, List.length_cons, List.length_nil]
        rw [List.getD_eq_getD_get?]
        have hx : steps.length + (0 + 1) - 1 = steps.length := by omega
        rw [hx, List.get?_concat_length]
        rfl
      rw [hlast]
      have hlen2 : (steps ++ [appendedStep D.durationMs D.fadeMs steps.length]).length =
          steps.length + 1 := by simp
      rw [hlen2]
      have hrange : List.range' steps.length (t + 1 - steps.length) =
          steps.length :: List.range' (steps.length + 1) (t + 1 - (steps.length + 1)) := by
        have hx : t + 1 - steps.length = (t + 1 - (steps.length + 1)) + 1 := by omega
        rw [hx, List.range'_succ]
      rw [hrange]
      simp [appendedStep, List.append_assoc]
    · rw [ensureSteps, dif_neg h]
      have hz : t + 1 - steps.length = 0 := by omega
      rw [hz]
      simp

/-- C4: with a non-empty active program of length `len` and
`floor(i) ≥ len`, `setStep(i)` appends empty steps (no frames) that
duplicate the last step's `(durationMs, fadeMs)` until the program has
`floor(i)+1` steps, then sets `stepIndex = floor(i)` and
`positionMs = 0`. -/
theorem c4_setStep_appends (prog : Program) (s : SeqState) (i nowMs : ℚ)
    (hprog : s.activeProgram = some prog)
    (hne : prog.steps ≠ [])
    (hge : prog.steps.length ≤ (max 0 ⌊i⌋).toNat) :
    (((setStep nowMs i s).1.activeProgram.map (fun q => q.steps)).getD [] =
      prog.steps ++
        (List.range' prog.steps.length ((max 0 ⌊i⌋).toNat + 1 - prog.steps.length)).map
          (appendedStep (prog.steps.getD (prog.steps.length - 1) default).durationMs
            (prog.steps.getD (prog.steps.length - 1) default).fadeMs)) ∧
    ((setStep nowMs i s).1.activeProgram.map (fun q => q.steps.length)).getD 0 =
      (max 0 ⌊i⌋).toNat + 1 ∧
    (setStep nowMs i s).1.state.stepIndex = (max 0 ⌊i⌋).toNat ∧
    (setStep nowMs i s).1.state.positionMs = 0 ∧
    (setStep nowMs i s).2.length = 1 := by
  have hset : setStep nowMs i s =
      emitFrame nowMs { ensureProgramStep (max 0 ⌊i⌋).toNat s with
        state := { (ensureProgramStep (max 0 ⌊i⌋).toNat s).state with
          stepIndex := (max 0 ⌊i⌋).toNat, positionMs := 0 } } := by
    simp only [setStep, hprog]
  have hfields := buildFrame_snd_fields nowMs
    { ensureProgramStep (max 0 ⌊i⌋).toNat s with
      state := { (ensureProgramStep (max 0 ⌊i⌋).toNat s).state with
        stepIndex := (max 0 ⌊i⌋).toNat, positionMs := 0 } }
  have hap : (ensureProgramStep (max 0 ⌊i⌋).toNat s).activeProgram =
      some { prog with steps := ensureSteps (max 0 ⌊i⌋).toNat prog.steps } := by
    simp [ensureProgramStep, hprog]
  have happ := ensureSteps_append ((max 0 ⌊i⌋).toNat + 1 - prog.steps.length)
    (max 0 ⌊i⌋).toNat prog.steps rfl hne
  refine ⟨?_, ?_, ?_, ?_, ?_⟩
  · rw [hset, emitFrame_eq, hfields.2.2.1]
    simp only [hap, Option.map_some', Option.getD_some]
    rw [happ]
  · rw [hset, emitFrame_eq, hfields.2.2.1]
    simp only [hap, Option.map_some', Option.getD_some]
    rw [happ]
    simp only [List.length_append, List.length_map, List.length_range']
    omega
  · rw [hset, emitFrame_eq, hfields.1]
  · rw [hset, emitFrame_eq, hfields.1]
  · rw [hset, emitFrame_eq]
    simp

/-- One-step program used to witness C4. -/
def c4WitnessProg : Program :=
  { id := "p4", spm := 120, loop := true,
    steps := [{ id := "s1", durationMs := 700, fadeMs := 40, frames := [] }] }

def c4WitnessState : SeqState :=
  { state := { isPlaying := false, isBlackout := false, programId := some "p4",
               stepIndex := 0, positionMs := 0, spm := 120, loop := true },
    timer := false, mixTimer := false, frameIntervalMs := 33,
    lastTickAtMs := none, activeProgram := some c4WitnessProg,
    layerAValues := [], mixTransition := none }

theorem c4_witness :
    (c4WitnessProg.steps ≠ [] ∧
     c4WitnessProg.steps.length ≤ (max 0 ⌊(3 : ℚ)⌋).toNat) ∧
    (setStep 0 3 c4WitnessState).1.state.stepIndex = (max 0 ⌊(3 : ℚ)⌋).toNat ∧
    ((setStep 0 3 c4WitnessState).1.activeProgram.map (fun q => q.steps.length)).getD 0 =
      (max 0 ⌊(3 : ℚ)⌋).toNat + 1 := by
  have hfl0 : ⌊(3 : ℚ)⌋ = 3 := by norm_num
  have hge : c4WitnessProg.steps.length ≤ (max 0 ⌊(3 : ℚ)⌋).toNat := by
    rw [hfl0]
    decide
  have h := c4_setStep_appends c4WitnessProg c4WitnessState 3 0 rfl (by simp [c4WitnessProg]) hge
  exact ⟨⟨by simp [c4WitnessProg], hge⟩, h.2.2.1, h.2.1⟩

/-! ### More arithmetic lemmas -/

theorem jsRound_intCast (n : ℤ) : jsRound (n : ℚ) = n := by
  rw [jsRound, Int.floor_eq_iff]
  constructor
  · linarith
  · linarith

theorem clampChannel_intCast (n : ℤ) (h0 : 0 ≤ n) (h255 : n ≤ 255) :
    clampChannel (n : ℚ) = n := by
  rw [clampChannel,
    if_neg (by rw [not_lt]; exact_mod_cast h0),
    if_neg (by rw [not_lt]; exact_mod_cast h255),
    jsRound_intCast]

theorem clampChannel_zero : clampChannel 0 = 0 := by
  rw [clampChannel, if_neg (by norm_num), if_neg (by norm_num), jsRound_zero]

theorem clamp01_le_one (q : ℚ) : clamp01 q ≤ 1 := by
  unfold clamp01
  split_ifs <;> linarith

/-! ### Claim C7: layer A store invariants -/

/-- No stored layer-A vector is all-zero. -/
def LayerANoZero (m : LayerValueMap) : Prop :=
  ∀ k v, jsGet m k = some v → isZeroValue v = false

theorem setLayerAKeyMap_of_unchanged (m : LayerValueMap) (key : String) (v : FeatureValue) :
    (setLayerAKeyMap m key v).1 = false → (setLayerAKeyMap m key v).2 = m := by
  simp only [setLayerAKeyMap]
  by_cases hz : isZeroValue ((asArray v).map clampChannel) = true
  · rw [if_pos hz]
    by_cases hex : (jsGet m key).isSome = true
    · rw [if_pos hex]
      intro h
      simp at h
    · rw [if_neg hex]
      intro h
      rfl
  · rw [if_neg hz]
    by_cases heq : valuesEqual (jsGet m key) ((asArray v).map clampChannel) = true
    · rw [if_pos heq]
      intro h
      rfl
    · rw [if_neg heq]
      intro h
      simp at h

theorem applyLayerAOpMap_noZero (m : LayerValueMap) (op : LayerAOperation)
    (h : LayerANoZero m) : LayerANoZero (applyLayerAOpMap m op).2 := by
  cases op with
  | set fixtureId featureId value =>
    intro k v hv
    simp only [applyLayerAOpMap, setLayerAKeyMap] at hv
    by_cases hz : isZeroValue ((asArray value).map clampChannel)
    · rw [if_pos hz] at hv
      by_cases hex : (jsGet m (frameKey fixtureId featureId)).isSome
      · rw [if_pos hex] at hv
        simp only at hv
        rw [jsGet_jsDelete] at hv
        split_ifs at hv
        exact h k v hv
      · rw [if_neg hex] at hv
        exact h k v hv
    · rw [if_neg hz] at hv
      by_cases heq : valuesEqual (jsGet m (frameKey fixtureId featureId))
          ((asArray value).map clampChannel) = true
      · rw [if_pos heq] at hv
        exact h k v hv
      · rw [if_neg heq] at hv
        simp only at hv
        rw [jsGet_jsSet] at hv
        split_ifs at hv with hk
        · cases hv
          simpa using hz
        · exact h k v hv
  | clearFeature fixtureId featureId =>
    intro k v hv
    simp only [applyLayerAOpMap, clearLayerAKeyMap] at hv
    by_cases hex : (jsGet m (frameKey fixtureId featureId)).isSome
    · rw [if_pos hex] at hv
      simp only at hv
      rw [jsGet_jsDelete] at hv
      split_ifs at hv
      exact h k v hv
    · rw [if_neg hex] at hv
      exact h k v hv
  | clearFixture fixtureId =>
    intro k v hv
    simp only [applyLayerAOpMap, clearLayerAFixtureKeysMap] at hv
    have h2 : jsGet (m.filter (fun p => !p.1.startsWith (fixtureId ++ ":"))) k =
        (if (!k.startsWith (fixtureId ++ ":")) = true then jsGet m k else none) :=
      jsGet_filterKeys m (fun x => !x.startsWith (fixtureId ++ ":")) k
    rw [h2] at hv
    split_ifs at hv
    exact h k v hv

theorem applyLayerAOpsMap_noZero (ops : List LayerAOperation) :
    ∀ m : LayerValueMap, LayerANoZero m → LayerANoZero (applyLayerAOpsMap m ops) := by
  induction ops with
  | nil => intro m h; exact h
  | cons op rest ih =>
    intro m h
    have h1 := applyLayerAOpMap_noZero m op h
    exact ih _ h1

theorem setLayerAKeyMap_stores (m : LayerValueMap) (key : String) (v : FeatureValue)
    (hz : isZeroValue ((asArray v).map clampChannel) = false) :
    jsGet (setLayerAKeyMap m key v).2 key = some ((asArray v).map clampChannel) := by
  simp only [setLayerAKeyMap]
  rw [if_neg (by simp [hz])]
  by_cases heq : valuesEqual (jsGet m key) ((asArray v).map clampChannel) = true
  · rw [if_pos heq]
    unfold valuesEqual at heq
    cases hg : jsGet m key with
    | none => rw [hg] at heq; simp at heq
    | some l =>
      rw [hg] at heq
      simp only [beq_iff_eq] at heq
      rw [heq]
  · rw [if_neg heq]
    simp only
    rw [jsGet_jsSet, if_pos rfl]

theorem setLayerAValue_unchanged (s : SeqState) (f k : String) (v : FeatureValue) (nowMs : ℚ)
    (hch : (setLayerAKeyMap s.layerAValues (frameKey f k) v).1 = false) :
    (setLayerAValue nowMs f k v s).1.layerAValues = s.layerAValues ∧
    (setLayerAValue nowMs f k v s).2 = [] := by
  have hA : (buildFrame nowMs s).2.layerAValues = s.layerAValues :=
    (buildFrame_snd_fields nowMs s).2.1
  by_cases hvm : getVisibleMixMode s = .static
  · simp only [setLayerAValue, captureVisibleValues, hvm, if_pos]
    simp only [hA, hch, Bool.not_false, if_pos]
    exact ⟨by rw [setLayerAKeyMap_of_unchanged _ _ _ hch], trivial⟩
  · simp only [setLayerAValue, captureVisibleValues, hvm, if_neg, if_false]
    simp only [hch, Bool.not_false, if_pos]
    exact ⟨by rw [setLayerAKeyMap_of_unchanged _ _ _ hch], trivial⟩

/-- C7: layer-A store invariants.  (i) No operation sequence ever stores
an all-zero vector.  (ii) A non-zero write stores exactly the
clamp-and-round of the written vector under its key.  (iii) Writing a
vector equal to the stored one reports unchanged: the map is untouched
and `setLayerAValue` emits no frame.  (iv) An all-zero write is the same
operation as a clear of that key. -/
theorem c7_layerA_store_invariants :
    (∀ (m : LayerValueMap) (ops : List LayerAOperation),
      LayerANoZero m → LayerANoZero (applyLayerAOpsMap m ops)) ∧
    (∀ (m : LayerValueMap) (key : String) (v : FeatureValue),
      isZeroValue ((asArray v).map clampChannel) = false →
      jsGet (setLayerAKeyMap m key v).2 key = some ((asArray v).map clampChannel)) ∧
    (∀ (s : SeqState) (f k : String) (v : FeatureValue) (nowMs : ℚ),
      isZeroValue ((asArray v).map clampChannel) = false →
      valuesEqual (jsGet s.layerAValues (frameKey f k)) ((asArray v).map clampChannel) = true →
      (setLayerAKeyMap s.layerAValues (frameKey f k) v).1 = false ∧
      (setLayerAValue nowMs f k v s).1.layerAValues = s.layerAValues ∧
      (setLayerAValue nowMs f k v s).2 = []) ∧
    (∀ (m : LayerValueMap) (key : String) (v : FeatureValue),
      isZeroValue ((asArray v).map clampChannel) = true →
      setLayerAKeyMap m key v = clearLayerAKeyMap m key) := by
  refine ⟨fun m ops h => applyLayerAOpsMap_noZero ops m h,
    fun m key v hz => setLayerAKeyMap_stores m key v hz,
    fun s f k v nowMs hz heq => ?_,
    fun m key v hz => ?_⟩
  · have hch : (setLayerAKeyMap s.layerAValues (frameKey f k) v).1 = false := by
      simp only [setLayerAKeyMap]
      rw [if_neg (by simp [hz]), if_pos heq]
    have h2 := setLayerAValue_unchanged s f k v nowMs hch
    exact ⟨hch, h2.1, h2.2⟩
  · simp only [setLayerAKeyMap, clearLayerAKeyMap, hz, if_pos]

/-- A concrete non-zero clamped write used to witness C7. -/
theorem c7_witness :
    LayerANoZero ([] : LayerValueMap) ∧
    isZeroValue ((asArray (.scalar 7)).map clampChannel) = false ∧
    LayerANoZero (applyLayerAOpsMap [] [.set "a" "b" (.scalar 7)]) ∧
    jsGet (setLayerAKeyMap [] "a:b" (.scalar 7)).2 "a:b" =
      some ((asArray (.scalar 7)).map clampChannel) := by
  have hnil : LayerANoZero ([] : LayerValueMap) := by
    intro k v h
    simp [jsGet] at h
  have h7 : clampChannel (7 : ℚ) = 7 := by
    rw [show (7 : ℚ) = ((7 : ℤ) : ℚ) by norm_num]
    exact clampChannel_intCast 7 (by decide) (by decide)
  have hz : isZeroValue ((asArray (FeatureValue.scalar 7)).map clampChannel) = false := by
    simp [asArray, isZeroValue, h7]
  exact ⟨hnil, hz,
    c7_layerA_store_invariants.1 [] [.set "a" "b" (.scalar 7)] hnil,
    c7_layerA_store_invariants.2.1 [] "a:b" (.scalar 7) hz⟩

/-! ### Claim C5: blackout (corrected) -/

theorem buildSequencerValues_blackout (s : SeqState)
    (hbo : s.state.isBlackout = true) : buildSequencerValues s = [] := by
  cases hap : s.activeProgram with
  | none => simp [buildSequencerValues, hap]
  | some prog =>
    by_cases hlen : prog.steps.length = 0
    · simp [buildSequencerValues, hap, hlen]
    · simp only [buildSequencerValues, hap, hlen, if_false]
      apply List.filterMap_eq_nil.mpr
      intro key hkey
      simp [hbo, elideZero, isZeroValue, List.all_eq_true]

theorem interpolateLayerValues_to_nil_one (m : LayerValueMap) :
    interpolateLayerValues m [] 1 = [] := by
  rw [interpolateLayerValues]
  apply List.filterMap_eq_nil.mpr
  intro key hkey
  have harg : ∀ a : ℤ, ((a : ℚ)) + ((((0 : ℤ) : ℚ)) - (a : ℚ)) * 1 = 0 := by
    intro a
    push_cast
    ring
  have hfb : ∀ i : ℕ, fallbackAt ((jsGet ([] : LayerValueMap) key).getD [0]) i = 0 := by
    intro i
    cases i <;> rfl
  simp [hfb, harg, elideZero, isZeroValue, List.all_eq_true, clampChannel_zero]

/-- A blacked-out, paused state with a non-empty layer A. -/
def c5CexState : SeqState :=
  { state := { isPlaying := false, isBlackout := true, programId := none,
               stepIndex := 0, positionMs := 0, spm := 120, loop := true },
    timer := false, mixTimer := false, frameIntervalMs := 33,
    lastTickAtMs := none, activeProgram := none,
    layerAValues := [("f:x", [10])], mixTransition := none }

/-- C5 counterexample: with `isBlackout = true` but the static mix mode
visible, the built frame still shows the layer-A values — `values` is
not empty. -/
theorem c5_counterexample :
    c5CexState.state.isBlackout = true ∧
    (buildFrame 0 c5CexState).1.values = [("f:x", [10])] ∧
    (buildFrame 0 c5CexState).1.values ≠ [] := by
  refine ⟨rfl, rfl, ?_⟩
  rw [(rfl : (buildFrame 0 c5CexState).1.values = [("f:x", [10])])]
  decide

/-- C5 (amended): blackout empties the sequencer layer (layer B) of
every built frame, and empties the visible `values` whenever the visible
mix mode is `sequencer` and no cross-fade toward sequencer mode is still
in progress (no transition, a transition toward another mode, or one
whose progress has reached 1); in static mode the layer-A values remain
visible. -/
theorem c5_blackout_empties_layerB (s : SeqState) (nowMs : ℚ)
    (hbo : s.state.isBlackout = true) :
    (buildFrame nowMs s).1.layerBValues = [] ∧
    (getVisibleMixMode s = .sequencer → s.mixTransition = none →
      (buildFrame nowMs s).1.values = []) ∧
    (∀ tr : MixTransition, getVisibleMixMode s = .sequencer → s.mixTransition = some tr →
      (tr.toMode ≠ .sequencer ∨
        1 ≤ clamp01 ((nowMs - tr.startedAtMs) / MODE_SWITCH_FADE_MS)) →
      (buildFrame nowMs s).1.values = []) := by
  have hB : (buildFrame nowMs s).1.layerBValues = buildSequencerValues s := rfl
  have hv : (buildFrame nowMs s).1.values =
      (buildVisibleValues nowMs s (getVisibleMixMode s)
        (if getVisibleMixMode s = .sequencer then buildSequencerValues s
         else s.layerAValues)).1 := rfl
  refine ⟨by rw [hB, buildSequencerValues_blackout s hbo], ?_, ?_⟩
  · intro hm hmix
    rw [hv, hm, if_pos rfl, buildSequencerValues_blackout s hbo]
    simp [buildVisibleValues, hmix]
  · intro tr hm hmix hcase
    rw [hv, hm, if_pos rfl, buildSequencerValues_blackout s hbo]
    simp only [buildVisibleValues, hmix]
    rcases hcase with hne | hge
    · rw [if_pos hne]
    · by_cases hne2 : tr.toMode ≠ VisibleMixMode.sequencer
      · rw [if_pos hne2]
      · rw [if_neg hne2, if_pos hge]
        have hone : clamp01 ((nowMs - tr.startedAtMs) / MODE_SWITCH_FADE_MS) = 1 :=
          le_antisymm (clamp01_le_one _) hge
        simp only [hone, interpolateLayerValues_to_nil_one]

/-- The program of the C5 witness state. -/
def c5WitnessProg : Program :=
  { id := "p5", spm := 120, loop := true,
    steps := [{ id := "s1", durationMs := 500, fadeMs := 0,
                frames := [⟨"f", "x", .arr [200, 10]⟩] }] }

/-- A playing, blacked-out state used to witness the amended C5. -/
def c5WitnessState : SeqState :=
  { state := { isPlaying := true, isBlackout := true, programId := some "p5",
               stepIndex := 0, positionMs := 100, spm := 120, loop := true },
    timer := true, mixTimer := false, frameIntervalMs := 33,
    lastTickAtMs := some 0, activeProgram := some c5WitnessProg,
    layerAValues := [], mixTransition := none }

theorem c5_witness :
    c5WitnessState.state.isBlackout = true ∧
    getVisibleMixMode c5WitnessState = .sequencer ∧
    (buildFrame 3 c5WitnessState).1.layerBValues = [] ∧
    (buildFrame 3 c5WitnessState).1.values = [] := by
  have h := c5_blackout_empties_layerB c5WitnessState 3 rfl
  exact ⟨rfl, rfl, h.1, h.2.1 rfl rfl⟩

/-! ### Claim C8: Art-Net packet layout -/

/-- C8: for any universe and a 512-byte payload, `buildArtDmxPacket`
yields an 18-byte header — ASCII `"Art-Net\0"`, OpCode `0x5000`
little-endian, protocol version 14 big-endian, sequence 0, physical 0,
`(u & 0x7FFF)` little-endian, and length 512 big-endian (`02 00`) —
followed by the payload, 530 bytes in total. -/
theorem c8_buildArtDmxPacket_header (u : ℕ) (dmx : List ℕ) (h : dmx.length = 512) :
    buildArtDmxPacket u dmx =
      [65, 114, 116, 45, 78, 101, 116, 0, 0, 80, 0, 14, 0, 0,
       (u &&& 0x7fff) % 256, (u &&& 0x7fff) / 256, 2, 0] ++ dmx ∧
    (buildArtDmxPacket u dmx).length = 530 := by
  have hle : u &&& 0x7fff ≤ 0x7fff := Nat.and_le_right
  have hdiv : (u &&& 0x7fff) / 256 % 256 = (u &&& 0x7fff) / 256 :=
    Nat.mod_eq_of_lt (by omega)
  constructor
  · simp only [buildArtDmxPacket, writeUInt16LE, writeUInt16BE, artNetMagic, h,
      List.replicate, List.drop, List.cons_append, List.nil_append, List.set, hdiv]
  · simp only [buildArtDmxPacket, writeUInt16LE, writeUInt16BE, artNetMagic, h]
    simp only [List.length_append, List.length_set, List.length_cons,
      List.length_replicate, List.length_drop, List.length_nil, h]

theorem c8_witness :
    (List.replicate 512 7 : List ℕ).length = 512 ∧
    buildArtDmxPacket 32769 (List.replicate 512 7) =
      [65, 114, 116, 45, 78, 101, 116, 0, 0, 80, 0, 14, 0, 0, 1, 0, 2, 0] ++
        List.replicate 512 7 := by
  have hand : 32769 &&& 0x7fff = 1 := by decide
  have h := (c8_buildArtDmxPacket_header 32769 (List.replicate 512 7)
    (List.length_replicate 512 7)).1
  rw [hand] at h
  exact ⟨List.length_replicate 512 7, h⟩

/-! ### C6 machinery -/

theorem foldl_mem_invariant {α β : Type} (P : α → Prop) (f : α → β → α) (l : List β)
    (init : α) (h0 : P init) (hstep : ∀ a b, b ∈ l → P a → P (f a b)) :
    P (l.foldl f init) := by
  induction l generalizing init with
  | nil => exact h0
  | cons b rest ih =>
    exact ih (f init b) (hstep init b (List.mem_cons_self b rest) h0)
      (fun a c hc ha => hstep a c (List.mem_cons_of_mem b hc) ha)

theorem mem_jsSet {κ α : Type} [BEq κ] (m : List (κ × α)) (k : κ) (v : α)
    (p : κ × α) (hp : p ∈ jsSet m k v) : p ∈ m ∨ p = (k, v) := by
  unfold jsSet at hp
  by_cases hany : m.any (fun q => q.1 == k) = true
  · rw [if_pos hany] at hp
    rcases List.mem_map.mp hp with ⟨q, hq, hfq⟩
    by_cases hqk : (q.1 == k) = true
    · right
      rw [if_pos hqk] at hfq
      exact hfq.symm
    · left
      rw [if_neg hqk] at hfq
      exact hfq ▸ hq
  · rw [if_neg hany] at hp
    rcases List.mem_append.mp hp with h | h
    · exact Or.inl h
    · right
      simpa using h

theorem mem_of_jsGet {κ α : Type} [BEq κ] (m : List (κ × α)) (k : κ) (v : α)
    (h : jsGet m k = some v) : ∃ p ∈ m, p.2 = v := by
  unfold jsGet at h
  cases hf : m.find? (fun p => p.1 == k) with
  | none => rw [hf] at h; simp at h
  | some p =>
    rw [hf] at h
    refine ⟨p, List.mem_of_find?_eq_some hf, ?_⟩
    simpa using h

theorem getD_set_self (l : List ℤ) (i : ℕ) (a d : ℤ) (h : i < l.length) :
    (l.set i a).getD i d = a := by
  rw [List.getD_eq_getElem?_getD, List.getElem?_set_self (by omega)]
  rfl

theorem getD_set_ne (l : List ℤ) (i j : ℕ) (a d : ℤ) (h : i ≠ j) :
    (l.set i a).getD j d = l.getD j d := by
  rw [List.getD_eq_getElem?_getD, List.getElem?_set_ne h, List.getD_eq_getElem?_getD]

theorem set_replicate_self (n : ℕ) (c : ℤ) (i : ℕ) :
    (List.replicate n c).set i c = List.replicate n c := by
  induction n generalizing i with
  | zero => rfl
  | succ m ih =>
    cases i with
    | zero => rfl
    | succ k => simp [List.replicate_succ, List.set, ih]

theorem foldl_range_succ {α : Type} (f : α → ℕ → α) (n : ℕ) (a : α) :
    (List.range (n + 1)).foldl f a = f ((List.range n).foldl f a) n := by
  rw [List.range_succ, List.foldl_append]
  rfl

theorem foldl_length_pres {β : Type} (f : List ℤ → β → List ℤ)
    (hf : ∀ buf b, (f buf b).length = buf.length) (l : List β) (buf : List ℤ) :
    (l.foldl f buf).length = buf.length := by
  induction l generalizing buf with
  | nil => rfl
  | cons b rest ih => rw [List.foldl_cons, ih, hf]

theorem foldl_writes_untouched (f : List ℤ → ℕ → List ℤ) (skip : ℕ → Prop)
    [DecidablePred skip] (p : ℕ → ℕ) (v : ℕ → ℤ)
    (hf : ∀ buf i, f buf i = if skip i then buf else buf.set (p i) (v i))
    (n : ℕ) (buf : List ℤ) (pos : ℕ) (d : ℤ)
    (h : ∀ i, i < n → ¬ skip i → p i ≠ pos) :
    ((List.range n).foldl f buf).getD pos d = buf.getD pos d := by
  induction n with
  | zero => rfl
  | succ m ih =>
    rw [foldl_range_succ, hf]
    by_cases hs : skip m
    · rw [if_pos hs]
      exact ih (fun i hi => h i (Nat.lt_succ_of_lt hi))
    · rw [if_neg hs, getD_set_ne _ _ _ _ _ (h m (Nat.lt_succ_self m) hs)]
      exact ih (fun i hi => h i (Nat.lt_succ_of_lt hi))

theorem foldl_writes_written (f : List ℤ → ℕ → List ℤ) (skip : ℕ → Prop)
    [DecidablePred skip] (p : ℕ → ℕ) (v : ℕ → ℤ)
    (hf : ∀ buf i, f buf i = if skip i then buf else buf.set (p i) (v i))
    (n : ℕ) (buf : List ℤ) (d : ℤ) (j : ℕ) (hj : j < n) (hs : ¬ skip j)
    (hlen : p j < buf.length)
    (hafter : ∀ i, j < i → i < n → ¬ skip i → p i ≠ p j) :
    ((List.range n).foldl f buf).getD (p j) d = v j := by
  induction n with
  | zero => omega
  | succ m ih =>
    rw [foldl_range_succ, hf]
    by_cases hjm : j = m
    · subst hjm
      rw [if_neg hs]
      apply getD_set_self
      rw [foldl_length_pres f (fun b i => by
        rw [hf]
        split_ifs
        · rfl
        · exact List.length_set b (p i) (v i) ▸ rfl)]
      exact hlen
    · have hjm2 : j < m := by omega
      by_cases hsm : skip m
      · rw [if_pos hsm]
        exact ih hjm2 (fun i h1 h2 => hafter i h1 (by omega))
      · rw [if_neg hsm,
          getD_set_ne _ _ _ _ _ (hafter m hjm2 (Nat.lt_succ_self m) hsm)]
        exact ih hjm2 (fun i h1 h2 => hafter i h1 (by omega))

/-- DMX address targeted by channel `i` of a feature
(`fixture.address + fixtureChannel - 1`). -/
def channelAddress (fixture : EnvFixture) (featureDef : FeatureDef) (i : ℕ) : ℤ :=
  fixture.address + featureDef.channels.getD i 0 - 1

/-- The byte the specification claims for channel `i` of a feature write:
raw `values[i] ?? values[0] ?? 0` clamped to `[0,255]`, then
`round((raw/255)*max)` when the range has `min = 0 < max < 255`, else raw
clamped to the `[min,max]` range (and to a DMX byte). -/
def claimedChannelByte (range : Option (ℚ × ℚ)) (vec : List ℤ) (i : ℕ) : ℤ :=
  let raw : ℚ := ((fallbackAt vec i : ℤ) : ℚ)
  let normalized := max 0 (min 255 raw)
  let rmin : ℚ := (range.map (fun r => r.1)).getD 0
  let rmax : ℚ := (range.map (fun r => r.2)).getD 255
  if rmin = 0 ∧ 0 < rmax ∧ rmax < 255 then jsRound ((normalized / 255) * rmax)
  else clampDmx (max rmin (min rmax normalized))

theorem writeChannel_eq (fixture : EnvFixture) (featureDef : FeatureDef) (vec : List ℤ)
    (buf : List ℤ) (i : ℕ) :
    writeChannel fixture featureDef vec buf i =
      if channelAddress fixture featureDef i < 1 ∨ channelAddress fixture featureDef i > 512
      then buf
      else buf.set (channelAddress fixture featureDef i - 1).toNat
        (claimedChannelByte featureDef.range vec i) := by
  unfold writeChannel claimedChannelByte channelAddress
  set raw : ℚ := ((fallbackAt vec i : ℤ) : ℚ) with hraw
  set rmin : ℚ := (featureDef.range.map (fun r => r.1)).getD 0 with hrmin
  set rmax : ℚ := (featureDef.range.map (fun r => r.2)).getD 255 with hrmax
  set normalized : ℚ := max 0 (min 255 raw) with hnorm
  have hn0 : 0 ≤ normalized := le_max_left 0 _
  have hn255 : normalized ≤ 255 := by
    rw [hnorm]
    rcases le_total 255 raw with h | h
    · rw [min_eq_left h]
      norm_num
    · rw [min_eq_right h]
      exact max_le (by norm_num) h
  by_cases hscale : rmin = 0 ∧ 0 < rmax ∧ rmax < 255
  · have hb : (decide (rmin = 0) && decide (rmax > 0) && decide (rmax < 255)) = true := by
      simp [hscale.1, hscale.2.1, hscale.2.2]
    rw [if_pos hscale]
    simp only [hb, if_true]
    have hval0 : 0 ≤ (normalized / 255) * rmax :=
      mul_nonneg (div_nonneg hn0 (by norm_num)) (le_of_lt hscale.2.1)
    have hval255 : (normalized / 255) * rmax ≤ rmax := by
      have h1 : normalized / 255 ≤ 1 := by
        rw [div_le_one (by norm_num : (0:ℚ) < 255)]
        exact hn255
      calc (normalized / 255) * rmax ≤ 1 * rmax :=
            mul_le_mul_of_nonneg_right h1 (le_of_lt hscale.2.1)
        _ = rmax := one_mul rmax
    have hcd : clampDmx ((normalized / 255) * rmax) = jsRound ((normalized / 255) * rmax) := by
      rw [clampDmx, if_neg (by linarith), if_neg (by linarith [hscale.2.2])]
    rw [hcd]
  · have hb : (decide (rmin = 0) && decide (rmax > 0) && decide (rmax < 255)) = false := by
      by_contra hcon
      rw [Bool.not_eq_false] at hcon
      simp only [Bool.and_eq_true, decide_eq_true_eq] at hcon
      exact hscale ⟨hcon.1.1, hcon.1.2, hcon.2⟩
    rw [if_neg hscale]
    simp only [hb, Bool.false_eq_true, if_false]

theorem zeroChannel_eq (fixture : EnvFixture) (buf : List ℤ) (fixtureChannel : ℤ) :
    zeroChannel fixture buf fixtureChannel =
      if fixture.address + fixtureChannel - 1 < 1 ∨ fixture.address + fixtureChannel - 1 > 512
      then buf
      else buf.set (fixture.address + fixtureChannel - 1 - 1).toNat 0 := rfl

theorem writeChannel_length (fixture : EnvFixture) (featureDef : FeatureDef) (vec : List ℤ)
    (buf : List ℤ) (i : ℕ) :
    (writeChannel fixture featureDef vec buf i).length = buf.length := by
  rw [writeChannel_eq]
  split_ifs
  · rfl
  · exact List.length_set buf _ _

theorem foldl_fixed {α β : Type} (f : α → β → α) (a : α) (l : List β)
    (h : ∀ b, f a b = a) : l.foldl f a = a := by
  induction l with
  | nil => rfl
  | cons b rest ih => rw [List.foldl_cons, h, ih]

theorem zeroChannel_zero (fixture : EnvFixture) (fixtureChannel : ℤ) :
    zeroChannel fixture zeroDmxBuffer fixtureChannel = zeroDmxBuffer := by
  rw [zeroChannel_eq]
  split_ifs
  · rfl
  · exact set_replicate_self 512 0 _

/-- Default-or-stored buffer under the all-zero invariant. -/
theorem getD_zero_invariant (dmx : List (ℤ × List ℤ)) (u : ℤ)
    (h : ∀ p ∈ dmx, p.2 = zeroDmxBuffer) :
    (jsGet dmx u).getD zeroDmxBuffer = zeroDmxBuffer := by
  cases hg : jsGet dmx u with
  | none => rfl
  | some v =>
    rcases mem_of_jsGet dmx u v hg with ⟨p, hp, hv⟩
    simp [Option.getD, ← hv, h p hp]

theorem zff_all_zero (fds : List (String × FixtureDef)) (fxs : List EnvFixture) :
    ∀ p ∈ zeroFixtureFootprints fds fxs, p.2 = zeroDmxBuffer := by
  unfold zeroFixtureFootprints
  refine foldl_mem_invariant (fun dmx => ∀ p ∈ dmx, p.2 = zeroDmxBuffer)
    (zeroFixtureFootprint fds) fxs [] ?_ ?_
  · intro p hp
    simp at hp
  · intro dmx fixture _ hinv p hp
    unfold zeroFixtureFootprint at hp
    cases hg : jsGet fds fixture.fixtureTypeId with
    | none =>
      rw [hg] at hp
      exact hinv p hp
    | some fixtureDef =>
      rw [hg] at hp
      simp only [getD_zero_invariant dmx fixture.universeId hinv] at hp
      rw [foldl_fixed _ _ _ (zeroChannel_zero fixture)] at hp
      rcases mem_jsSet _ _ _ _ hp with hmem | rfl
      · exact hinv p hmem
      · rfl

theorem zff_foldl_isSome (fds : List (String × FixtureDef)) (fxs : List EnvFixture) :
    ∀ (dmx : List (ℤ × List ℤ)) (u : ℤ),
      (jsGet (fxs.foldl (zeroFixtureFootprint fds) dmx) u).isSome = true ↔
        ((jsGet dmx u).isSome = true ∨
          ∃ f ∈ fxs, (jsGet fds f.fixtureTypeId).isSome = true ∧ f.universeId = u) := by
  induction fxs with
  | nil => simp
  | cons fixture rest ih =>
    intro dmx u
    rw [List.foldl_cons, ih]
    unfold zeroFixtureFootprint
    cases hg : jsGet fds fixture.fixtureTypeId with
    | none =>
      constructor
      · intro h
        rcases h with h | h
        · exact Or.inl h
        · exact Or.inr (by
            rcases h with ⟨f, hf, hres, huni⟩
            exact ⟨f, List.mem_cons_of_mem _ hf, hres, huni⟩)
      · intro h
        rcases h with h | ⟨f, hf, hres, huni⟩
        · exact Or.inl h
        · rcases List.mem_cons.mp hf with rfl | hf2
          · rw [hg] at hres
            simp at hres
          · exact Or.inr ⟨f, hf2, hres, huni⟩
    | some fixtureDef =>
      simp only
      rw [jsGet_jsSet]
      by_cases hu : u = fixture.universeId
      · subst hu
        rw [if_pos rfl]
        simp only [Option.isSome_some, true_or, true_iff]
        exact Or.inr ⟨fixture, List.mem_cons_self _ _, by rw [hg]; rfl, rfl⟩
      · rw [if_neg hu]
        constructor
        · intro h
          rcases h with h | ⟨f, hf, hres, huni⟩
          · exact Or.inl h
          · exact Or.inr ⟨f, List.mem_cons_of_mem _ hf, hres, huni⟩
        · intro h
          rcases h with h | ⟨f, hf, hres, huni⟩
          · exact Or.inl h
          · rcases List.mem_cons.mp hf with rfl | hf2
            · exact absurd huni.symm hu
            · exact Or.inr ⟨f, hf2, hres, huni⟩

theorem writeFrameValue_cases (fbid : List (String × EnvFixture))
    (fds : List (String × FixtureDef)) (dmx : List (ℤ × List ℤ))
    (entry : String × List ℤ) :
    writeFrameValue fbid fds dmx entry = dmx ∨
    ∃ (fid : String) (fixture : EnvFixture),
      jsGet fbid fid = some fixture ∧ (jsGet fds fixture.fixtureTypeId).isSome = true ∧
      ∃ buf : List ℤ,
        buf.length = ((jsGet dmx fixture.universeId).getD zeroDmxBuffer).length ∧
        writeFrameValue fbid fds dmx entry = jsSet dmx fixture.universeId buf := by
  simp only [writeFrameValue]
  cases hp : (jsSplitColon entry.1).get? 1 with
  | none => exact Or.inl rfl
  | some featureId =>
    simp only
    cases hfx : jsGet fbid ((jsSplitColon entry.1).getD 0 "") with
    | none => exact Or.inl rfl
    | some fixture =>
      simp only
      cases hfd : jsGet fds fixture.fixtureTypeId with
      | none => exact Or.inl rfl
      | some fixtureDef =>
        simp only
        cases hft : fixtureDef.features.find? (fun feature => feature.id == featureId) with
        | none => exact Or.inl rfl
        | some featureDef =>
          refine Or.inr ⟨(jsSplitColon entry.1).getD 0 "", fixture, hfx, by rw [hfd]; rfl,
            (List.range featureDef.channels.length).foldl
              (writeChannel fixture featureDef entry.2)
              ((jsGet dmx fixture.universeId).getD zeroDmxBuffer), ?_, rfl⟩
          exact foldl_length_pres _
            (fun buf i => writeChannel_length fixture featureDef entry.2 buf i) _ _

theorem wfv_isSome_mono (fbid : List (String × EnvFixture))
    (fds : List (String × FixtureDef)) (values : LayerValueMap) :
    ∀ (dmx0 : List (ℤ × List ℤ)) (u : ℤ), (jsGet dmx0 u).isSome = true →
      (jsGet (writeFrameValues fbid fds values dmx0) u).isSome = true := by
  induction values with
  | nil => exact fun dmx0 u h => h
  | cons entry rest ih =>
    intro dmx0 u h
    rw [writeFrameValues, List.foldl_cons]
    rcases writeFrameValue_cases fbid fds dmx0 entry with heq | ⟨fid, fixture, _, _, buf, _, heq⟩
    · rw [heq]
      exact ih dmx0 u h
    · rw [heq]
      apply ih
      rw [jsGet_jsSet]
      split_ifs
      · rfl
      · exact h

theorem wfv_isSome_bound (fbid : List (String × EnvFixture))
    (fds : List (String × FixtureDef)) (values : LayerValueMap) :
    ∀ (dmx0 : List (ℤ × List ℤ)) (u : ℤ),
      (jsGet (writeFrameValues fbid fds values dmx0) u).isSome = true →
      (jsGet dmx0 u).isSome = true ∨
        ∃ (fid : String) (fixture : EnvFixture), jsGet fbid fid = some fixture ∧
          (jsGet fds fixture.fixtureTypeId).isSome = true ∧ fixture.universeId = u := by
  induction values with
  | nil => exact fun dmx0 u h => Or.inl h
  | cons entry rest ih =>
    intro dmx0 u h
    rw [writeFrameValues, List.foldl_cons] at h
    rcases ih _ u h with h2 | h2
    · rcases writeFrameValue_cases fbid fds dmx0 entry with heq | ⟨fid, fixture, hfx, hres, buf, _, heq⟩
      · rw [heq] at h2
        exact Or.inl h2
      · rw [heq, jsGet_jsSet] at h2
        by_cases hu : u = fixture.universeId
        · exact Or.inr ⟨fid, fixture, hfx, hres, hu.symm⟩
        · rw [if_neg hu] at h2
          exact Or.inl h2
    · exact Or.inr h2

theorem wfv_sizes (fbid : List (String × EnvFixture))
    (fds : List (String × FixtureDef)) (values : LayerValueMap) :
    ∀ dmx0 : List (ℤ × List ℤ), (∀ p ∈ dmx0, p.2.length = 512) →
      ∀ p ∈ writeFrameValues fbid fds values dmx0, p.2.length = 512 := by
  induction values with
  | nil => exact fun dmx0 h => h
  | cons entry rest ih =>
    intro dmx0 hsz
    rw [writeFrameValues, List.foldl_cons]
    apply ih
    rcases writeFrameValue_cases fbid fds dmx0 entry with heq | ⟨fid, fixture, _, _, buf, hlen, heq⟩
    · rw [heq]
      exact hsz
    · rw [heq]
      intro p hp
      rcases mem_jsSet _ _ _ _ hp with hmem | rfl
      · exact hsz p hmem
      · show buf.length = 512
        rw [hlen]
        cases hg : jsGet dmx0 fixture.universeId with
        | none =>
          show zeroDmxBuffer.length = 512
          rw [zeroDmxBuffer, List.length_replicate]
        | some v =>
          rcases mem_of_jsGet _ _ _ hg with ⟨q, hq, hv⟩
          simpa [Option.getD, ← hv] using hsz q hq

theorem mem_jsMapOfList {κ α : Type} [BEq κ] (l : List (κ × α)) (p : κ × α)
    (hp : p ∈ jsMapOfList l) : p ∈ l := by
  unfold jsMapOfList at hp
  refine foldl_mem_invariant (fun m => ∀ q ∈ m, q ∈ l)
    (fun m q => jsSet m q.1 q.2) l [] ?_ ?_ p hp
  · intro q hq
    simp at hq
  · intro a b hb ha q hq
    rcases mem_jsSet _ _ _ _ hq with h | rfl
    · exact ha q h
    · exact hb

theorem getD_length_512 (dmx : List (ℤ × List ℤ)) (u : ℤ)
    (hsz : ∀ p ∈ dmx, p.2.length = 512) :
    ((jsGet dmx u).getD zeroDmxBuffer).length = 512 := by
  cases hg : jsGet dmx u with
  | none =>
    show zeroDmxBuffer.length = 512
    rw [zeroDmxBuffer, List.length_replicate]
  | some v =>
    rcases mem_of_jsGet _ _ _ hg with ⟨q, hq, hv⟩
    simpa [Option.getD, ← hv] using hsz q hq

theorem writeFrameValues_single (fbid : List (String × EnvFixture))
    (fds : List (String × FixtureDef)) (dmx1 : List (ℤ × List ℤ))
    (key : String) (vec : List ℤ) (fixtureId featureId : String)
    (fixture : EnvFixture) (fixtureDef : FixtureDef) (featureDef : FeatureDef)
    (hsplit : jsSplitColon key = [fixtureId, featureId])
    (hfx : jsGet fbid fixtureId = some fixture)
    (hfd : jsGet fds fixture.fixtureTypeId = some fixtureDef)
    (hfeat : fixtureDef.features.find? (fun feature => feature.id == featureId) =
      some featureDef) :
    writeFrameValues fbid fds [(key, vec)] dmx1 =
      jsSet dmx1 fixture.universeId
        ((List.range featureDef.channels.length).foldl
          (writeChannel fixture featureDef vec)
          ((jsGet dmx1 fixture.universeId).getD zeroDmxBuffer)) := by
  show writeFrameValue fbid fds dmx1 (key, vec) = _
  simp only [writeFrameValue, hsplit, List.getD, List.get?, Option.getD, hfx, hfd, hfeat]

/-- C6 (amended): `buildRenderPacket` for a known environment returns
one 512-byte buffer per universe referenced by fixtures whose fixture
type resolves in the config (universes whose only fixtures have
unresolvable types get no buffer); after the zero pass every such buffer
is all zeros; and a single feature write stores, at each in-range
channel address, the claimed byte — `round((raw/255)*max)` when the
range has `min = 0 < max < 255`, else the raw value clamped to
`[min,max]` — while leaving all other positions untouched and dropping
out-of-range addresses. -/
theorem c6_buildRenderPacket_buffers (values : LayerValueMap) (config : RuntimeConfig)
    (environmentId : String) (environment : EnvironmentDef)
    (henv : config.environments.find? (fun item => item.id == environmentId) =
      some environment) :
    (∀ dmx, buildRenderPacket values config environmentId = some dmx →
      (∀ p ∈ dmx, p.2.length = 512) ∧
      (∀ u : ℤ, (jsGet dmx u).isSome = true ↔
        ∃ f ∈ environment.fixtures,
          (jsGet (jsMapOfList (config.fixtures.map (fun fd => (fd.id, fd))))
            f.fixtureTypeId).isSome = true ∧ f.universeId = u)) ∧
    (∀ p ∈ zeroFixtureFootprints
        (jsMapOfList (config.fixtures.map (fun fd => (fd.id, fd))))
        environment.fixtures, p.2 = zeroDmxBuffer) ∧
    (∀ (fbid : List (String × EnvFixture)) (fds : List (String × FixtureDef))
        (dmx1 : List (ℤ × List ℤ)) (key : String) (vec : List ℤ)
        (fixtureId featureId : String) (fixture : EnvFixture)
        (fixtureDef : FixtureDef) (featureDef : FeatureDef),
      jsSplitColon key = [fixtureId, featureId] →
      jsGet fbid fixtureId = some fixture →
      jsGet fds fixture.fixtureTypeId = some fixtureDef →
      fixtureDef.features.find? (fun feature => feature.id == featureId) =
        some featureDef →
      (∀ p ∈ dmx1, p.2.length = 512) →
      ∃ buf : List ℤ,
        writeFrameValues fbid fds [(key, vec)] dmx1 =
          jsSet dmx1 fixture.universeId buf ∧
        buf.length = 512 ∧
        (∀ (pos : ℕ) (d : ℤ),
          (∀ i, i < featureDef.channels.length →
            1 ≤ channelAddress fixture featureDef i →
            channelAddress fixture featureDef i ≤ 512 →
            (channelAddress fixture featureDef i - 1).toNat ≠ pos) →
          buf.getD pos d =
            ((jsGet dmx1 fixture.universeId).getD zeroDmxBuffer).getD pos d) ∧
        (∀ j, j < featureDef.channels.length →
          1 ≤ channelAddress fixture featureDef j →
          channelAddress fixture featureDef j ≤ 512 →
          (∀ i, j < i → i < featureDef.channels.length →
            1 ≤ channelAddress fixture featureDef i →
            channelAddress fixture featureDef i ≤ 512 →
            channelAddress fixture featureDef i ≠ channelAddress fixture featureDef j) →
          buf.getD (channelAddress fixture featureDef j - 1).toNat 0 =
            claimedChannelByte featureDef.range vec j)) := by
  refine ⟨?_, zff_all_zero _ _, ?_⟩
  · intro dmx hdmx
    have hb : buildRenderPacket values config environmentId =
        some (writeFrameValues
          (jsMapOfList (environment.fixtures.map (fun f => (f.id, f))))
          (jsMapOfList (config.fixtures.map (fun fd => (fd.id, fd))))
          values
          (zeroFixtureFootprints
            (jsMapOfList (config.fixtures.map (fun fd => (fd.id, fd))))
            environment.fixtures)) := by
      simp only [buildRenderPacket, henv]
    rw [hb] at hdmx
    injection hdmx with hdmx
    subst hdmx
    constructor
    · apply wfv_sizes
      intro p hp
      rw [zff_all_zero _ _ p hp, zeroDmxBuffer, List.length_replicate]
    · intro u
      constructor
      · intro h
        rcases wfv_isSome_bound _ _ _ _ _ h with h2 | ⟨fid, fixture, hfx, hres, huni⟩
        · rcases (zff_foldl_isSome _ _ [] u).mp h2 with h3 | h3
          · simp [jsGet_nil] at h3
          · exact h3
        · rcases mem_of_jsGet _ _ _ hfx with ⟨p, hp, hv⟩
          have hmem := mem_jsMapOfList _ _ hp
          rcases List.mem_map.mp hmem with ⟨f, hf, heq⟩
          rw [← heq] at hv
          simp only at hv
          subst hv
          exact ⟨f, hf, hres, huni⟩
      · intro h
        apply wfv_isSome_mono
        exact (zff_foldl_isSome _ _ [] u).mpr (Or.inr h)
  · intro fbid fds dmx1 key vec fixtureId featureId fixture fixtureDef featureDef
      hsplit hfx hfd hfeat hsz
    have hbl := getD_length_512 dmx1 fixture.universeId hsz
    refine ⟨(List.range featureDef.channels.length).foldl
      (writeChannel fixture featureDef vec)
      ((jsGet dmx1 fixture.universeId).getD zeroDmxBuffer),
      writeFrameValues_single fbid fds dmx1 key vec fixtureId featureId fixture
        fixtureDef featureDef hsplit hfx hfd hfeat, ?_, ?_, ?_⟩
    · rw [foldl_length_pres _
        (fun buf i => writeChannel_length fixture featureDef vec buf i), hbl]
    · intro pos d h
      refine foldl_writes_untouched (writeChannel fixture featureDef vec)
        (fun i => channelAddress fixture featureDef i < 1 ∨
          channelAddress fixture featureDef i > 512)
        (fun i => (channelAddress fixture featureDef i - 1).toNat)
        (fun i => claimedChannelByte featureDef.range vec i)
        (fun buf i => writeChannel_eq fixture featureDef vec buf i)
        featureDef.channels.length _ pos d ?_
      intro i hi hns
      push_neg at hns
      exact h i hi (by omega) (by omega)
    · intro j hj h1 h512 hafter
      refine foldl_writes_written (writeChannel fixture featureDef vec)
        (fun i => channelAddress fixture featureDef i < 1 ∨
          channelAddress fixture featureDef i > 512)
        (fun i => (channelAddress fixture featureDef i - 1).toNat)
        (fun i => claimedChannelByte featureDef.range vec i)
        (fun buf i => writeChannel_eq fixture featureDef vec buf i)
        featureDef.channels.length _ 0 j hj ?_ ?_ ?_
      · intro hcon
        omega
      · rw [hbl]
        show (channelAddress fixture featureDef j - 1).toNat < 512
        omega
      · intro i hji hi hns
        push_neg at hns
        show (channelAddress fixture featureDef i - 1).toNat ≠
          (channelAddress fixture featureDef j - 1).toNat
        intro hcon
        exact hafter i hji hi (by omega) (by omega) (by omega)

/-- Environment whose only fixture has an unresolvable fixture type. -/
def c6CexEnv : EnvironmentDef :=
  { id := "env", fixtures := [{ id := "f1", fixtureTypeId := "ghost",
                                universeId := 0, address := 1 }] }

/-- Config knowing `c6CexEnv` but no fixture types. -/
def c6CexConfig : RuntimeConfig :=
  { fixtures := [], environments := [c6CexEnv] }

/-- C6 counterexample: an environment fixture with an unresolvable
fixture type references universe 0 yet the packet has no buffer for it. -/
theorem c6_counterexample :
    (∃ f ∈ c6CexEnv.fixtures, f.universeId = 0) ∧
    buildRenderPacket [] c6CexConfig "env" = some [] ∧
    jsGet ([] : List (ℤ × List ℤ)) 0 = none := by
  refine ⟨⟨{ id := "f1", fixtureTypeId := "ghost", universeId := 0, address := 1 },
    List.mem_singleton.mpr rfl, rfl⟩, rfl, rfl⟩

def c6WitnessEnv : EnvironmentDef :=
  { id := "env", fixtures := [{ id := "f1", fixtureTypeId := "par",
                                universeId := 1, address := 10 }] }

def c6WitnessConfig : RuntimeConfig :=
  { fixtures := [{ id := "par", channels := 3,
                   features := [{ id := "rgb", kind := "color",
                                  channels := [1, 2, 3], range := some (0, 100) }] }],
    environments := [c6WitnessEnv] }

theorem c6_witness :
    (c6WitnessConfig.environments.find? (fun item => item.id == "env") =
      some c6WitnessEnv) ∧
    (∃ dmx, buildRenderPacket [("f1:rgb", [255, 10, 300])] c6WitnessConfig "env" =
        some dmx ∧ (∀ p ∈ dmx, p.2.length = 512) ∧ (jsGet dmx 1).isSome = true) ∧
    (∃ buf : List ℤ,
      writeFrameValues
        (jsMapOfList (c6WitnessEnv.fixtures.map (fun f : EnvFixture => (f.id, f))))
        (jsMapOfList (c6WitnessConfig.fixtures.map (fun fd : FixtureDef => (fd.id, fd))))
        [("f1:rgb", [255, 10, 300])] [] =
          jsSet [] 1 buf ∧ buf.length = 512) := by
  have h := c6_buildRenderPacket_buffers [("f1:rgb", [255, 10, 300])] c6WitnessConfig "env" c6WitnessEnv rfl
  refine ⟨rfl, ?_, ?_⟩
  · refine ⟨_, rfl, ?_, ?_⟩
    · exact (h.1 _ rfl).1
    · refine ((h.1 _ rfl).2 1).mpr ?_
      exact ⟨{ id := "f1", fixtureTypeId := "par", universeId := 1, address := 10 },
        List.mem_singleton.mpr rfl, rfl, rfl⟩
  · rcases h.2.2
      (jsMapOfList (c6WitnessEnv.fixtures.map (fun f : EnvFixture => (f.id, f))))
      (jsMapOfList (c6WitnessConfig.fixtures.map (fun fd : FixtureDef => (fd.id, fd))))
      [] "f1:rgb" [255, 10, 300] "f1" "rgb"
      { id := "f1", fixtureTypeId := "par", universeId := 1, address := 10 }
      { id := "par", channels := 3,
        features := [{ id := "rgb", kind := "color",
                       channels := [1, 2, 3], range := some (0, 100) }] }
      { id := "rgb", kind := "color", channels := [1, 2, 3], range := some (0, 100) }
      (by decide) rfl rfl rfl (by intro p hp; simp at hp) with ⟨buf, hbuf, hlen, _, _⟩
    exact ⟨buf, hbuf, hlen⟩

/-! ### Claim C9: MQTT light round-trip -/

namespace Mqtt

theorem clampByte_nonneg (q : ℚ) : 0 ≤ clampByte q := by
  unfold clampByte
  split_ifs with h1 h2
  · exact le_refl 0
  · norm_num
  · push_neg at h1
    rw [jsRound]
    exact Int.floor_nonneg.mpr (by linarith)

theorem clampByte_le_255 (q : ℚ) : clampByte q ≤ 255 := by
  unfold clampByte
  split_ifs with h1 h2
  · norm_num
  · exact le_refl 255
  · push_neg at h2
    rw [jsRound]
    have h := Int.floor_lt.mpr (show q + 1 / 2 < ((256 : ℤ) : ℚ) by push_cast; linarith)
    omega

theorem clampByte_intCast (n : ℤ) (h0 : 0 ≤ n) (h255 : n ≤ 255) :
    clampByte (n : ℚ) = n := by
  unfold clampByte
  by_cases hz : n = 0
  · subst hz
    norm_num
  · rw [if_neg (by push_neg; exact_mod_cast lt_of_le_of_ne h0 (Ne.symm hz))]
    by_cases hm : n = 255
    · subst hm
      rw [if_pos (by norm_num)]
    · rw [if_neg (by
        push_neg
        exact_mod_cast lt_of_le_of_ne h255 hm), jsRound_intCast]

theorem clampByte_clampByte (q : ℚ) : clampByte ((clampByte q : ℤ) : ℚ) = clampByte q :=
  clampByte_intCast _ (clampByte_nonneg q) (clampByte_le_255 q)

theorem clampChannel_clampByte (q : ℚ) : clampChannel ((clampByte q : ℤ) : ℚ) = clampByte q :=
  clampChannel_intCast _ (clampByte_nonneg q) (clampByte_le_255 q)

theorem c9_buildOps (fid fname rid : String) (r g b B : ℚ) :
    buildLightOperations (some ⟨fid, fname, some rid, none, none⟩) none fid
      ⟨none, some B, some (r, g, b), none⟩ =
    ([.set fid rid (intArr (normalizeRgb ((scaleValues (normalizeRgb [r, g, b])
        ((clampByte B : ℤ) : ℚ)).map (fun v => (v : ℚ)))))],
     some ⟨.rgb, clampByte B, normalizeRgb [r, g, b], [255, 255]⟩) := rfl

theorem c9_scaled (r g b B : ℚ) :
    normalizeRgb ((scaleValues (normalizeRgb [r, g, b])
        ((clampByte B : ℤ) : ℚ)).map (fun v => (v : ℚ))) =
    [clampByte ((clampByte r : ℚ) * ((clampByte B : ℚ) / 255)),
     clampByte ((clampByte g : ℚ) * ((clampByte B : ℚ) / 255)),
     clampByte ((clampByte b : ℚ) * ((clampByte B : ℚ) / 255))] := by
  simp only [normalizeRgb, scaleValues, List.map, lastFallbackAt, List.get?, Option.getD,
    clampByte_clampByte]


end Mqtt

namespace Mqtt

theorem c9_layerA (fid rid : String) (S1 S2 S3 : ℤ)
    (h1 : 0 ≤ S1) (h2 : S1 ≤ 255) (h3 : 0 ≤ S2) (h4 : S2 ≤ 255)
    (h5 : 0 ≤ S3) (h6 : S3 ≤ 255) (hpos : 0 < S1) :
    applyLayerAOpsMap [] [.set fid rid (intArr [S1, S2, S3])] =
      [(frameKey fid rid, [S1, S2, S3])] := by
  simp only [applyLayerAOpsMap, List.foldl, applyLayerAOpMap, setLayerAKeyMap, intArr,
    asArray, List.map]
  rw [clampChannel_intCast S1 h1 h2, clampChannel_intCast S2 h3 h4,
    clampChannel_intCast S3 h5 h6]
  have hz : isZeroValue [S1, S2, S3] = false := by
    simp [isZeroValue]
    omega
  rw [hz]
  simp [valuesEqual, jsGet, jsSet]

set_option maxHeartbeats 2000000 in
theorem c9_publish (fid fname rid : String) (S1 S2 S3 cb : ℤ) (base1 base2 : List ℤ)
    (hb1 : 0 ≤ S1) (hb2 : S1 ≤ 255) (hb3 : 0 ≤ S2) (hb4 : S2 ≤ 255)
    (hb5 : 0 ≤ S3) (hb6 : S3 ≤ 255) (hpos : 0 < S1)
    (hcb0 : 0 < cb) (hcb255 : cb ≤ 255) :
    publishLightState ⟨fid, fname, some rid, none, none⟩
      [(frameKey fid rid, [S1, S2, S3])] (some ⟨.rgb, cb, base1, base2⟩) =
    (⟨"ON", cb, .rgb,
      some (clampByte ((S1 : ℚ) / (cb : ℚ) * 255),
            clampByte ((S2 : ℚ) / (cb : ℚ) * 255),
            clampByte ((S3 : ℚ) / (cb : ℚ) * 255)), none⟩,
     ⟨.rgb, cb,
      [clampByte ((S1 : ℚ) / (cb : ℚ) * 255),
       clampByte ((S2 : ℚ) / (cb : ℚ) * 255),
       clampByte ((S3 : ℚ) / (cb : ℚ) * 255)], base2⟩) := by
  have hget : jsGet [(frameKey fid rid, [S1, S2, S3])] (frameKey fid rid) =
      some [S1, S2, S3] := by
    rw [jsGet_cons, if_pos rfl]
  have e1 : clampByte ((S1 : ℤ) : ℚ) = S1 := clampByte_intCast S1 hb1 hb2
  have e2 : clampByte ((S2 : ℤ) : ℚ) = S2 := clampByte_intCast S2 hb3 hb4
  have e3 : clampByte ((S3 : ℤ) : ℚ) = S3 := clampByte_intCast S3 hb5 hb6
  have e4 : clampByte ((cb : ℤ) : ℚ) = cb := clampByte_intCast cb (le_of_lt hcb0) hcb255
  have hmax : 0 < max S1 (max S2 S3) := lt_of_lt_of_le hpos (le_max_left _ _)
  simp only [publishLightState, Option.map_some', Option.map_none']
  simp only [hget, Option.getD_some]
  simp only [toArray, List.map, e1, e2, e3]
  simp only [normalizeRgb, normalizeCct, lastFallbackAt, List.get?, Option.getD, List.map,
    e1, e2, e3]
  have hdec : decide (S1 ⊔ (S2 ⊔ S3) > 0) = true := decide_eq_true (by simpa using hmax)
  simp only [List.getD_cons_zero, List.getD_cons_succ, Option.isSome_some, Option.isSome_none,
    Bool.false_and, Bool.and_false, Bool.true_and, Bool.and_true, hdec,
    gt_iff_lt, lt_self_iff_false, decide_False, eq_self_iff_true, if_true, true_and,
    and_true, hcb0, e4, Option.getD_some, Option.getD_none]
  simp only [Bool.false_eq_true, if_false, e4, hcb0, if_true, false_and,
    List.getD_cons_zero, List.getD_cons_succ, clampByte_clampByte]


theorem jsRound_eq (q : ℚ) (n : ℤ) (h1 : (n : ℚ) ≤ q + 1 / 2) (h2 : q + 1 / 2 < n + 1) :
    jsRound q = n := by
  rw [jsRound]
  exact Int.floor_eq_iff.mpr ⟨h1, h2⟩

theorem clampByte_eval (q : ℚ) (n : ℤ) (h0 : ¬ q ≤ 0) (h255 : ¬ q ≥ 255)
    (h1 : (n : ℚ) ≤ q + 1 / 2) (h2 : q + 1 / 2 < n + 1) : clampByte q = n := by
  unfold clampByte
  rw [if_neg h0, if_neg h255]
  exact jsRound_eq q n h1 h2

/-- C9 (amended): processing a light command `{color:{r,g,b}, brightness:B}`
for an rgb-only fixture stores brightness `clampByte B` and base color
`normalizeRgb [r,g,b]`, and the subsequent layer-A mirror publish reports
state ON, brightness `clampByte B` and color mode rgb as claimed — but the
published color is the double-quantized reconstruction
`clampByte(clampByte(clampByte c * clampByte B / 255) / clampByte B * 255)`
per channel, not `clampByte c` itself. -/
theorem c9_light_rgb_roundtrip (fid fname rid : String) (r g b B : ℚ)
    (hb : 0 < clampByte B)
    (hpos : 0 < clampByte ((clampByte r : ℚ) * ((clampByte B : ℚ) / 255))) :
    ∃ ops : List LayerAOperation,
      buildLightOperations (some ⟨fid, fname, some rid, none, none⟩) none fid
          ⟨none, some B, some (r, g, b), none⟩ =
        (ops, some ⟨.rgb, clampByte B, normalizeRgb [r, g, b], [255, 255]⟩) ∧
      publishLightState ⟨fid, fname, some rid, none, none⟩
          (applyLayerAOpsMap [] ops)
          (some ⟨.rgb, clampByte B, normalizeRgb [r, g, b], [255, 255]⟩) =
        (⟨"ON", clampByte B, .rgb,
          some (clampByte ((clampByte ((clampByte r : ℚ) * ((clampByte B : ℚ) / 255)) : ℚ)
                  / (clampByte B : ℚ) * 255),
                clampByte ((clampByte ((clampByte g : ℚ) * ((clampByte B : ℚ) / 255)) : ℚ)
                  / (clampByte B : ℚ) * 255),
                clampByte ((clampByte ((clampByte b : ℚ) * ((clampByte B : ℚ) / 255)) : ℚ)
                  / (clampByte B : ℚ) * 255)), none⟩,
         ⟨.rgb, clampByte B,
          [clampByte ((clampByte ((clampByte r : ℚ) * ((clampByte B : ℚ) / 255)) : ℚ)
             / (clampByte B : ℚ) * 255),
           clampByte ((clampByte ((clampByte g : ℚ) * ((clampByte B : ℚ) / 255)) : ℚ)
             / (clampByte B : ℚ) * 255),
           clampByte ((clampByte ((clampByte b : ℚ) * ((clampByte B : ℚ) / 255)) : ℚ)
             / (clampByte B : ℚ) * 255)], [255, 255]⟩) := by
  refine ⟨[.set fid rid (intArr (normalizeRgb ((scaleValues (normalizeRgb [r, g, b])
      ((clampByte B : ℤ) : ℚ)).map (fun v => (v : ℚ)))))],
    c9_buildOps fid fname rid r g b B, ?_⟩
  rw [c9_scaled]
  rw [c9_layerA fid rid _ _ _ (clampByte_nonneg _) (clampByte_le_255 _)
    (clampByte_nonneg _) (clampByte_le_255 _) (clampByte_nonneg _) (clampByte_le_255 _) hpos]
  exact c9_publish fid fname rid _ _ _ _ _ _
    (clampByte_nonneg _) (clampByte_le_255 _) (clampByte_nonneg _) (clampByte_le_255 _)
    (clampByte_nonneg _) (clampByte_le_255 _) hpos hb (clampByte_le_255 B)


/-- C9 counterexample: r=100, B=2 publishes color 128, not 100, while
brightness is still the claimed `clampByte B = 2`. -/
theorem c9_counterexample :
    ∃ ops : List LayerAOperation,
      buildLightOperations (some ⟨"f1", "F", some "rgb", none, none⟩) none "f1"
          ⟨none, some 2, some (100, 0, 0), none⟩ =
        (ops, some ⟨.rgb, 2, [100, 0, 0], [255, 255]⟩) ∧
      ((publishLightState ⟨"f1", "F", some "rgb", none, none⟩
          (applyLayerAOpsMap [] ops)
          (some ⟨.rgb, 2, [100, 0, 0], [255, 255]⟩)).1.color = some (128, 0, 0) ∧
       (publishLightState ⟨"f1", "F", some "rgb", none, none⟩
          (applyLayerAOpsMap [] ops)
          (some ⟨.rgb, 2, [100, 0, 0], [255, 255]⟩)).1.brightness = 2 ∧
       normalizeRgb [100, 0, 0] = [100, 0, 0] ∧
       some ((128 : ℤ), (0 : ℤ), (0 : ℤ)) ≠ some ((100 : ℤ), (0 : ℤ), (0 : ℤ))) := by
  have e100 : clampByte (100 : ℚ) = 100 := by
    rw [show (100 : ℚ) = ((100 : ℤ) : ℚ) by norm_num]
    exact clampByte_intCast 100 (by decide) (by decide)
  have e2 : clampByte (2 : ℚ) = 2 := by
    rw [show (2 : ℚ) = ((2 : ℤ) : ℚ) by norm_num]
    exact clampByte_intCast 2 (by decide) (by decide)
  have e0 : clampByte (0 : ℚ) = 0 := by
    unfold clampByte
    rw [if_pos le_rfl]
  have eS1 : clampByte ((clampByte (100 : ℚ) : ℚ) * ((clampByte (2 : ℚ) : ℚ) / 255)) = 1 := by
    rw [e100, e2]
    exact clampByte_eval _ 1 (by push_cast; norm_num) (by push_cast; norm_num)
      (by push_cast; norm_num) (by push_cast; norm_num)
  have eS0 : clampByte ((clampByte (0 : ℚ) : ℚ) * ((clampByte (2 : ℚ) : ℚ) / 255)) = 0 := by
    rw [e0, e2]
    have : ((0 : ℤ) : ℚ) * (((2 : ℤ) : ℚ) / 255) = 0 := by push_cast; ring
    rw [this]
    unfold clampByte
    rw [if_pos le_rfl]
  have eR1 : clampByte (((1 : ℤ) : ℚ) / ((2 : ℤ) : ℚ) * 255) = 128 := by
    exact clampByte_eval _ 128 (by push_cast; norm_num) (by push_cast; norm_num)
      (by push_cast; norm_num) (by push_cast; norm_num)
  have eR0 : clampByte (((0 : ℤ) : ℚ) / ((2 : ℤ) : ℚ) * 255) = 0 := by
    have : ((0 : ℤ) : ℚ) / ((2 : ℤ) : ℚ) * 255 = 0 := by push_cast; ring
    rw [this]
    unfold clampByte
    rw [if_pos le_rfl]
  have hnorm : normalizeRgb [(100 : ℚ), 0, 0] = [100, 0, 0] := by
    simp only [normalizeRgb, lastFallbackAt, List.get?, Option.getD, e100, e0]
  refine ⟨[.set "f1" "rgb" (intArr (normalizeRgb ((scaleValues (normalizeRgb [100, 0, 0])
      ((clampByte 2 : ℤ) : ℚ)).map (fun v => (v : ℚ)))))], ?_, ?_, ?_, ?_, ?_⟩
  · have h := c9_buildOps "f1" "F" "rgb" 100 0 0 2
    rw [h, e2, hnorm]
  · rw [c9_scaled, eS1, eS0,
      c9_layerA "f1" "rgb" 1 0 0 (by decide) (by decide) (by decide) (by decide)
        (by decide) (by decide) (by decide),
      c9_publish "f1" "F" "rgb" 1 0 0 2 [100, 0, 0] [255, 255] (by decide) (by decide)
        (by decide) (by decide) (by decide) (by decide) (by decide) (by decide) (by decide)]
    simp only [eR1, eR0]
  · rw [c9_scaled, eS1, eS0,
      c9_layerA "f1" "rgb" 1 0 0 (by decide) (by decide) (by decide) (by decide)
        (by decide) (by decide) (by decide),
      c9_publish "f1" "F" "rgb" 1 0 0 2 [100, 0, 0] [255, 255] (by decide) (by decide)
        (by decide) (by decide) (by decide) (by decide) (by decide) (by decide) (by decide)]
  · exact hnorm
  · decide


theorem c9_witness :
    0 < clampByte (2 : ℚ) ∧
    0 < clampByte ((clampByte (100 : ℚ) : ℚ) * ((clampByte (2 : ℚ) : ℚ) / 255)) ∧
    (∃ ops : List LayerAOperation,
      buildLightOperations (some ⟨"f1", "F", some "rgb", none, none⟩) none "f1"
          ⟨none, some 2, some (100, 0, 0), none⟩ =
        (ops, some ⟨.rgb, clampByte 2, normalizeRgb [100, 0, 0], [255, 255]⟩) ∧
      publishLightState ⟨"f1", "F", some "rgb", none, none⟩
          (applyLayerAOpsMap [] ops)
          (some ⟨.rgb, clampByte 2, normalizeRgb [100, 0, 0], [255, 255]⟩) =
        (⟨"ON", clampByte 2, .rgb,
          some (clampByte ((clampByte ((clampByte 100 : ℚ) * ((clampByte 2 : ℚ) / 255)) : ℚ)
                  / (clampByte 2 : ℚ) * 255),
                clampByte ((clampByte ((clampByte (0 : ℚ) : ℚ) * ((clampByte 2 : ℚ) / 255)) : ℚ)
                  / (clampByte 2 : ℚ) * 255),
                clampByte ((clampByte ((clampByte (0 : ℚ) : ℚ) * ((clampByte 2 : ℚ) / 255)) : ℚ)
                  / (clampByte 2 : ℚ) * 255)), none⟩,
         ⟨.rgb, clampByte 2,
          [clampByte ((clampByte ((clampByte 100 : ℚ) * ((clampByte 2 : ℚ) / 255)) : ℚ)
             / (clampByte 2 : ℚ) * 255),
           clampByte ((clampByte ((clampByte (0 : ℚ) : ℚ) * ((clampByte 2 : ℚ) / 255)) : ℚ)
             / (clampByte 2 : ℚ) * 255),
           clampByte ((clampByte ((clampByte (0 : ℚ) : ℚ) * ((clampByte 2 : ℚ) / 255)) : ℚ)
             / (clampByte 2 : ℚ) * 255)], [255, 255]⟩)) := by
  have e2 : clampByte (2 : ℚ) = 2 := by
    rw [show (2 : ℚ) = ((2 : ℤ) : ℚ) by norm_num]
    exact clampByte_intCast 2 (by decide) (by decide)
  have e100 : clampByte (100 : ℚ) = 100 := by
    rw [show (100 : ℚ) = ((100 : ℤ) : ℚ) by norm_num]
    exact clampByte_intCast 100 (by decide) (by decide)
  have h1 : 0 < clampByte (2 : ℚ) := by
    rw [e2]
    decide
  have h2 : 0 < clampByte ((clampByte (100 : ℚ) : ℚ) * ((clampByte (2 : ℚ) : ℚ) / 255)) := by
    rw [e100, e2,
      clampByte_eval _ 1 (by push_cast; norm_num) (by push_cast; norm_num)
        (by push_cast; norm_num) (by push_cast; norm_num)]
    decide
  exact ⟨h1, h2, c9_light_rgb_roundtrip "f1" "F" "rgb" 100 0 0 2 h1 h2⟩

end Mqtt

end Chaser
